import Mathlib

/-!
Verification development for the itinerary-generator application (`app.py`).

Shallow-embedding conventions:

* Python strings are Lean `String`s, except in the code-fence stripping
  step, where Python's codepoint slicing matters and a `str` is modelled
  as `List Char`.
* Decimal literals are scaled to integers: geographic coordinates are
  multiplied by 10^4 (so 6.9271 becomes 69271), ratings by 10 (4.5
  becomes 45).
* Python `dict` literals become association lists in source order, read
  with `dictLookup`, which gives later bindings precedence — exactly the
  semantics of a Python dict literal built front to back (the source
  tables contain duplicate keys: "Nuwara Eliya" in the coordinate table
  and "Shopping" in the icon table).
* Every outbound HTTP call is a value of `Http β`: `exn` models a raised
  exception (caught by the surrounding `try`/`except`), `ok status body`
  a response with a status code and parsed JSON body of type `β`.  The
  behaviour of the external services and of the API-key configuration is
  a parameter record, and the Streamlit session caches are explicit
  association lists threaded through the functions.
-/

/-- Lookup in an association list with Python-dict literal semantics:
later bindings shadow earlier ones. -/
def dictLookup {α : Type} : List (String × α) → String → Option α
  | [], _ => none
  | p :: rest, k =>
    match dictLookup rest k with
    | some v => some v
    | none => if p.1 = k then some p.2 else none

theorem dictLookup_mem {α : Type} {l : List (String × α)} {k : String} {v : α}
    (h : dictLookup l k = some v) : (k, v) ∈ l := by
  induction l with
  | nil => simp [dictLookup] at h
  | cons p rest ih =>
    simp only [dictLookup] at h
    cases hr : dictLookup rest k with
    | some w =>
      rw [hr] at h
      cases h
      exact List.mem_cons_of_mem _ (ih hr)
    | none =>
      rw [hr] at h
      by_cases hk : p.1 = k
      · rw [if_pos hk] at h
        have hv : v = p.2 := by injection h with h2; exact h2.symm
        subst hv
        have : (k, p.2) = p := by rw [← hk]
        rw [this]
        exact List.mem_cons_self _ _
      · rw [if_neg hk] at h
        cases h

theorem dictLookup_append_self {α : Type} (l : List (String × α)) (k : String) (v : α) :
    dictLookup (l ++ [(k, v)]) k = some v := by
  induction l with
  | nil => simp [dictLookup]
  | cons p rest ih => simp [dictLookup, ih]

/-- The static fallback coordinate table inside `get_city_coordinates`
(app.py, `fallback_coords`), in source order; the dict literal repeats
the key "Nuwara Eliya", so under dict semantics the later pair wins.
Coordinates are scaled by 10^4. -/
def fallback_coords : List (String × Int × Int) :=
  [("Colombo", 69271, 798612),
   ("Kandy", 72906, 806337),
   ("Galle", 60535, 802200),
   ("Negombo", 72090, 798367),
   ("Bentota", 64210, 799988),
   ("Hikkaduwa", 61390, 801038),
   ("Mirissa", 59455, 804583),
   ("Weligama", 59743, 804294),
   ("Tangalle", 60167, 807833),
   ("Nuwara Eliya", 69497, 807890),
   ("Ella", 68675, 810486),
   ("Badulla", 69895, 810557),
   ("Bandarawela", 68256, 809982),
   ("Hatton", 68917, 805958),
   ("Sigiriya", 79570, 807603),
   ("Dambulla", 78567, 806491),
   ("Polonnaruwa", 79403, 810188),
   ("Anuradhapura", 83114, 804037),
   ("Trincomalee", 85874, 812152),
   ("Batticaloa", 77167, 817000),
   ("Pasikudah", 79347, 815677),
   ("Arugam Bay", 68385, 818352),
   ("Jaffna", 96615, 800255),
   ("Mannar", 89814, 799044),
   ("Vavuniya", 87543, 804981),
   ("Yala", 63833, 815167),
   ("Udawalawe", 64435, 808747),
   ("Wilpattu", 84500, 800000),
   ("Kitulgala", 69894, 804175),
   ("Ratnapura", 66828, 803992),
   ("Kalutara", 65831, 799593),
   ("Beruwala", 64733, 799844),
   ("Chilaw", 75758, 797956),
   ("Puttalam", 80362, 798283),
   ("Matara", 59485, 805353),
   ("Hambantota", 61240, 811185),
   ("Ampara", 72833, 816667),
   ("Monaragala", 68728, 813506),
   ("Kurunegala", 74867, 803647),
   ("Kegalle", 72533, 803464),
   ("Matale", 74675, 806234),
   ("Nuwara Eliya", 69708, 807829)]

/-- `get_city_coordinates(city, country)` (app.py): the live Nominatim
geocode of the query string built from `city` and `country` is the
parameter `live`; `none` models the `except` path or a `None` location.
On failure it falls back to the static table, then to the fixed centre
of Sri Lanka `(7.8731, 80.7718)`. -/
def get_city_coordinates (live : String → String → Option (Int × Int))
    (city country : String) : Int × Int :=
  match live city country with
  | some c => c
  | none =>
    match dictLookup fallback_coords city with
    | some c => c
    | none => (78731, 807718)

/-- C1: As stated, the claim is false: when the live geocoding lookup
succeeds, `get_city_coordinates` returns the live result, not the
fallback-table pair, even for a city in the table ("Colombo" here). -/
theorem live_geocoder_overrides_fallback_table :
    ¬ ∀ (live : String → String → Option (Int × Int)) (city country : String)
        (c : Int × Int),
        dictLookup fallback_coords city = some c →
        get_city_coordinates live city country = c := by
  intro h
  exact absurd (h (fun _ _ => some (0, 0)) "Colombo" "Sri Lanka" (69271, 798612) rfl)
    (by decide)

/-- C1 (amended): whenever the live geocoding lookup fails, every city in
the static fallback table resolves to exactly the coordinate pair the
table records for it (the last binding for a repeated key), for any
country. -/
theorem get_city_coordinates_fallback_exact
    (live : String → String → Option (Int × Int)) (city country : String)
    (c : Int × Int)
    (hlive : live city country = none)
    (htab : dictLookup fallback_coords city = some c) :
    get_city_coordinates live city country = c := by
  simp [get_city_coordinates, hlive, htab]

theorem get_city_coordinates_fallback_exact_witness :
    get_city_coordinates (fun _ _ => none) "Colombo" "Sri Lanka" = (69271, 798612) :=
  get_city_coordinates_fallback_exact (fun _ _ => none) "Colombo" "Sri Lanka"
    (69271, 798612) rfl rfl

/-- A place record as produced by the providers or the fallback table.
Ratings are scaled by 10; `coordinates` is `none` when the source dict
has no "coordinates" key, as in the fallback table. -/
structure Place where
  name : String
  type : String
  rating : Int
  description : String
  coordinates : Option (Int × Int)
deriving DecidableEq, Inhabited

/-- Outcome of one `requests.get` call: a raised exception, or a
response with a status code and a parsed JSON body of type `β`. -/
inductive Http (β : Type) where
  | exn : Http β
  | ok (status : Nat) (body : β) : Http β

/-- `get_places_from_opentripmap` (app.py).  `apiKey` is the module's
`OPENTRIPMAP_API_KEY` (`none` when unset).  The radius-search response
body is the list of the places' "xid" values in order (`none` for an
entry whose "xid" is absent or empty); the code takes the first 10 and
keeps each non-`None` result of `get_place_details_from_opentripmap`,
whose fallible behaviour is the function `details`.  A missing key, a
raised exception, or a non-200 status yields `[]`. -/
def get_places_from_opentripmap (apiKey : Option String)
    (resp : Http (List (Option String)))
    (details : String → Option Place) : List Place :=
  match apiKey with
  | none => []
  | some _ =>
    match resp with
    | .exn => []
    | .ok status body =>
      if status = 200 then (body.take 10).filterMap (fun xid => xid.bind details)
      else []

/-- One venue of a Foursquare search response, reduced to the fields the
code reads; `none` models an absent key, read with a `.get` default. -/
structure Venue where
  name : Option String
  category : Option String
  rating : Option Int
  lat : Option Int
  lon : Option Int

/-- The venue → place normalisation inside `get_places_from_foursquare`;
`rand` is the value of `round(random.uniform(3.5, 5.0), 1)` (scaled by
10) used when the venue carries no rating. -/
def venue_to_place (city : String) (rand : Int) (v : Venue) : Place :=
  ⟨v.name.getD "Unknown", v.category.getD "Attraction", v.rating.getD rand,
   "A popular attraction in " ++ city ++ ".", some (v.lat.getD 0, v.lon.getD 0)⟩

/-- `get_places_from_foursquare` (app.py).  A missing `FOURSQUARE_API_KEY`,
a raised exception, or a non-200 status yields `[]`; on a 200 response
every venue of the body is normalised. -/
def get_places_from_foursquare (apiKey : Option String) (rand : Int)
    (resp : Http (List Venue)) (city country : String) : List Place :=
  match apiKey with
  | none => []
  | some _ =>
    match resp with
    | .exn => []
    | .ok status body =>
      if status = 200 then body.map (venue_to_place city rand) else []

set_option maxHeartbeats 2000000 in
/-- The static fallback place table inside `get_real_places` (app.py,
`fallback_places`): 41 cities, 10 places each, transcribed in source
order with ratings scaled by 10. -/
def fallback_places : List (String × List Place) :=
  [("Colombo",
    [⟨"Gangaramaya Temple", "Buddhist Temple", 45, "A beautiful Buddhist temple complex in Colombo with traditional architecture and museum.", none⟩,
     ⟨"Galle Face Green", "Urban Park", 43, "Ocean-side urban park perfect for evening walks, kite flying, and sunset views.", none⟩,
     ⟨"National Museum of Colombo", "Museum", 42, "Sri Lanka\x27s largest museum showcasing cultural heritage and historical artifacts.", none⟩,
     ⟨"Mount Lavinia Beach", "Beach", 42, "Popular beach area with golden sands, swimming spots, and beachside restaurants.", none⟩,
     ⟨"Viharamahadevi Park", "Park", 41, "Colombo\x27s largest park with beautiful gardens, fountains, and a giant Buddha statue.", none⟩,
     ⟨"Independence Memorial Hall", "Monument", 40, "Historical monument commemorating independence from British rule.", none⟩,
     ⟨"Pettah Floating Market", "Market", 40, "Colorful floating market with local produce, crafts, and street food.", none⟩,
     ⟨"Colombo Dutch Museum", "Museum", 39, "Museum showcasing Dutch colonial history in a restored 17th-century building.", none⟩,
     ⟨"Seema Malaka Temple", "Buddhist Temple", 43, "Serene temple on Beira Lake designed by Geoffrey Bawa.", none⟩,
     ⟨"Colombo Lotus Tower", "Observation Tower", 41, "Tallest tower in South Asia with observation decks and panoramic city views.", none⟩]),
   ("Kandy",
    [⟨"Temple of the Sacred Tooth Relic", "Buddhist Temple", 48, "UNESCO World Heritage site housing Buddha\x27s tooth relic, most sacred Buddhist site in Sri Lanka.", none⟩,
     ⟨"Kandy Lake", "Lake", 42, "Scenic artificial lake in the heart of Kandy, perfect for evening walks with temple views.", none⟩,
     ⟨"Royal Botanical Gardens Peradeniya", "Botanical Garden", 46, "One of Asia\x27s finest botanical gardens with diverse plant collections and orchid house.", none⟩,
     ⟨"Bahiravokanda Vihara Buddha Statue", "Monument", 44, "Giant white Buddha statue overlooking Kandy with panoramic city views.", none⟩,
     ⟨"Udawatta Kele Sanctuary", "Forest Reserve", 43, "Forest reserve with walking trails, birdwatching, and tranquility near Temple of Tooth.", none⟩,
     ⟨"Kandy Arts & Crafts Association", "Crafts Center", 40, "Center showcasing traditional Sri Lankan arts, crafts, and wood carvings.", none⟩,
     ⟨"Commonwealth War Cemetery", "Memorial", 42, "Well-maintained cemetery honoring Commonwealth soldiers from World War II.", none⟩,
     ⟨"Kandy View Point", "Viewpoint", 45, "Best viewpoint for panoramic photos of Kandy city and the lake.", none⟩,
     ⟨"National Museum Kandy", "Museum", 38, "Museum in the former royal palace showcasing Kandy\x27s history and culture.", none⟩,
     ⟨"Embekka Devalaya", "Hindu Temple", 43, "Famous for intricate wood carvings and pillars, UNESCO tentative site.", none⟩]),
   ("Galle",
    [⟨"Galle Fort", "Fort", 48, "UNESCO World Heritage site with Dutch colonial architecture, ramparts, and charming streets.", none⟩,
     ⟨"Unawatuna Beach", "Beach", 46, "Pristine crescent-shaped beach with coral reefs, water sports, and beach cafes.", none⟩,
     ⟨"Japanese Peace Pagoda", "Pagoda", 43, "Peaceful stupa on Rumassala Hill with panoramic ocean views and meditation areas.", none⟩,
     ⟨"Galle Lighthouse", "Lighthouse", 44, "Iconic lighthouse at the edge of Galle Fort, Sri Lanka\x27s oldest light station.", none⟩,
     ⟨"National Maritime Museum", "Museum", 40, "Museum showcasing maritime history, marine biology, and naval artifacts.", none⟩,
     ⟨"Jungle Beach", "Beach", 45, "Secluded beach surrounded by jungle, accessible by short hike from Unawatuna.", none⟩,
     ⟨"Galle Fort Clock Tower", "Landmark", 42, "Historic clock tower at the fort entrance, built in 1883.", none⟩,
     ⟨"Martin Wickramasinghe Museum", "Museum", 41, "Museum dedicated to Sri Lanka\x27s renowned author in his childhood home.", none⟩,
     ⟨"Rumassala Sanctuary", "Sanctuary", 43, "Jungle sanctuary with hiking trails, medicinal plants, and beach access.", none⟩,
     ⟨"St. Mary\x27s Cathedral", "Church", 40, "Historic Catholic church within Galle Fort with beautiful architecture.", none⟩]),
   ("Negombo",
    [⟨"Negombo Beach", "Beach", 43, "Long golden sandy beach close to Colombo International Airport, perfect for sunset walks.", none⟩,
     ⟨"Negombo Fish Market", "Market", 42, "Bustling fish market showcasing daily catch, auctions, and traditional fishing methods.", none⟩,
     ⟨"Dutch Canal", "Canal", 41, "Historic canal network built by Dutch, perfect for boat rides and birdwatching tours.", none⟩,
     ⟨"St. Mary\x27s Church", "Church", 43, "Beautiful Catholic church with impressive architecture and religious significance.", none⟩,
     ⟨"Negombo Lagoon", "Lagoon", 44, "Extensive lagoon perfect for birdwatching, boat tours, and mangrove exploration.", none⟩,
     ⟨"Muthurajawela Marsh", "Wetland", 42, "Protected wetland with boat safaris, diverse birdlife, and mangrove forests.", none⟩,
     ⟨"Angurukaramulla Temple", "Buddhist Temple", 40, "Ancient Buddhist temple with intricate murals, statues, and peaceful atmosphere.", none⟩,
     ⟨"Negombo Dutch Fort", "Fort", 39, "Remains of Dutch fort overlooking Negombo lagoon, built in 1672.", none⟩,
     ⟨"Hamilton Canal", "Canal", 40, "Scenic canal built by British, connecting Colombo to Puttalam.", none⟩,
     ⟨"St. Sebastian\x27s Church", "Church", 41, "Gothic-style church with beautiful stained glass windows and architecture.", none⟩]),
   ("Bentota",
    [⟨"Bentota Beach", "Beach", 45, "Long golden beach perfect for swimming, water sports, and relaxation with calm waters.", none⟩,
     ⟨"Brief Garden", "Garden", 44, "Beautiful garden created by Bevis Bawa, brother of architect Geoffrey Bawa.", none⟩,
     ⟨"Kosgoda Turtle Hatchery", "Conservation Center", 43, "Sea turtle conservation and hatchery project protecting endangered species.", none⟩,
     ⟨"Bentota River Safari", "River Cruise", 44, "Boat safari through mangrove forests, waterways, and birdwatching spots.", none⟩,
     ⟨"Lunuganga Garden", "Garden", 46, "Country estate and garden of architect Geoffrey Bawa, showcasing landscape design.", none⟩,
     ⟨"Galapatha Raja Maha Viharaya", "Buddhist Temple", 42, "Ancient temple with historical significance and beautiful architecture.", none⟩,
     ⟨"Water Sports Center", "Adventure Sports", 43, "Jet skiing, banana boat rides, windsurfing, and other water activities.", none⟩,
     ⟨"Bentota Railway Bridge", "Bridge", 40, "Historic railway bridge with scenic views of Bentota River.", none⟩,
     ⟨"Induruwa Beach", "Beach", 42, "Less crowded beach section ideal for peaceful swimming and relaxation.", none⟩,
     ⟨"Bawa\x27s Bentota Beach Hotel", "Architecture", 43, "Iconic hotel designed by Geoffrey Bawa, masterpiece of tropical modernism.", none⟩]),
   ("Hikkaduwa",
    [⟨"Hikkaduwa Beach", "Beach", 45, "Famous for surfing, nightlife, coral reefs, and vibrant beach culture.", none⟩,
     ⟨"Hikkaduwa Coral Sanctuary", "Marine Sanctuary", 44, "Protected marine area with glass-bottom boat tours and snorkeling.", none⟩,
     ⟨"Tsunami Honganji Temple", "Buddhist Temple", 42, "Japanese-style temple built after the 2004 tsunami as a memorial.", none⟩,
     ⟨"Hikkaduwa Turtle Hatchery", "Conservation Center", 43, "Conservation project protecting sea turtles and their hatchlings.", none⟩,
     ⟨"Narigama Beach", "Beach", 44, "Less crowded beach section with good swimming conditions and beach bars.", none⟩,
     ⟨"Hikkaduwa National Park", "National Park", 43, "Marine national park protecting coral reefs and marine biodiversity.", none⟩,
     ⟨"Moonstone Mine", "Mine", 40, "Traditional moonstone mining area showcasing local gem industry.", none⟩,
     ⟨"Seenigama Temple", "Hindu Temple", 41, "Ancient temple on small island, accessible during low tide.", none⟩,
     ⟨"Hikkaduwa Surf Point", "Surf Spot", 45, "Popular surfing spot with consistent waves for beginners and experts.", none⟩,
     ⟨"Hikkaduwa Glass Bottom Boats", "Boat Tour", 42, "Glass bottom boat tours to see coral reefs and marine life without getting wet.", none⟩]),
   ("Mirissa",
    [⟨"Mirissa Beach", "Beach", 47, "Picturesque beach with palm trees, known for whale watching and beautiful sunsets.", none⟩,
     ⟨"Mirissa Whale Watching", "Wildlife Tour", 46, "Boat tours to spot blue whales, sperm whales, and dolphins in their natural habitat.", none⟩,
     ⟨"Secret Beach", "Beach", 45, "Secluded beach accessible through jungle path, perfect for privacy and relaxation.", none⟩,
     ⟨"Coconut Tree Hill", "Viewpoint", 44, "Iconic viewpoint with coconut trees and panoramic ocean views, perfect for photos.", none⟩,
     ⟨"Parrot Rock", "Viewpoint", 43, "Rock formation with panoramic views of Mirissa beach and surrounding area.", none⟩,
     ⟨"Mirissa Fishing Harbour", "Harbor", 40, "Active fishing harbor with colorful boats, fresh seafood, and local atmosphere.", none⟩,
     ⟨"Weligama Bay", "Bay", 43, "Nearby bay popular for surfing lessons with gentle waves for beginners.", none⟩,
     ⟨"Mirissa Marine Park", "Marine Park", 42, "Marine protected area with diverse marine life and coral formations.", none⟩,
     ⟨"Polhena Beach", "Beach", 41, "Sheltered beach with calm waters ideal for swimming and snorkeling.", none⟩,
     ⟨"Mirissa Cliff", "Viewpoint", 43, "Cliff area with restaurants and bars offering sunset views over the ocean.", none⟩]),
   ("Tangalle",
    [⟨"Tangalle Beach", "Beach", 46, "Long, pristine beach with golden sand, rock formations, and clear turquoise water.", none⟩,
     ⟨"Rekawa Turtle Conservation Project", "Conservation Center", 45, "Turtle nesting beach with conservation project and night turtle watching tours.", none⟩,
     ⟨"Hummanaya Blow Hole", "Natural Wonder", 44, "Only blow hole in Sri Lanka, where sea water sprays up through rock formations.", none⟩,
     ⟨"Mulkirigala Rock Temple", "Buddhist Temple", 43, "Ancient rock temple with caves, frescoes, and panoramic views from the summit.", none⟩,
     ⟨"Medaketiya Beach", "Beach", 45, "Secluded beach near Tangalle, perfect for swimming and relaxation.", none⟩,
     ⟨"Tangalle Fishing Harbor", "Harbor", 40, "Traditional fishing harbor with colorful boats and fresh seafood market.", none⟩,
     ⟨"Wewurukannala Temple", "Buddhist Temple", 42, "Temple with largest seated Buddha statue in Sri Lanka (160 feet tall).", none⟩,
     ⟨"Goyambokka Beach", "Beach", 44, "Beautiful sheltered beach with calm waters, ideal for families with children.", none⟩,
     ⟨"Kalametiya Bird Sanctuary", "Bird Sanctuary", 43, "Lagoon and mangrove area perfect for birdwatching and boat safaris.", none⟩,
     ⟨"Palm Paradise Cabanas", "Beach Resort", 42, "Beachfront accommodation with traditional cabanas and palm-fringed beach.", none⟩]),
   ("Nuwara Eliya",
    [⟨"Gregory Lake", "Lake", 43, "Scenic man-made lake with boating, horse riding, swan pedal boats, and beautiful views.", none⟩,
     ⟨"Horton Plains National Park", "National Park", 47, "UNESCO World Heritage site with hiking trails to World\x27s End viewpoint and Baker\x27s Falls.", none⟩,
     ⟨"Tea Plantations", "Plantation", 46, "Famous tea estates offering tours, factory visits, and tastings of Ceylon tea.", none⟩,
     ⟨"Victoria Park", "Park", 42, "Beautiful botanical garden with exotic plants, flower beds, and birdwatching.", none⟩,
     ⟨"Lover\x27s Leap Waterfall", "Waterfall", 41, "Scenic waterfall with hiking trails, tea plantation views, and local legends.", none⟩,
     ⟨"Single Tree Hill", "Viewpoint", 44, "Highest point in Nuwara Eliya with 360-degree panoramic views of surrounding hills.", none⟩,
     ⟨"Nuwara Eliya Golf Club", "Golf Course", 43, "One of Asia\x27s oldest golf courses (1889) with mountain views and challenging layout.", none⟩,
     ⟨"Seetha Amman Temple", "Hindu Temple", 42, "Colorful temple associated with the Ramayana epic, located in Seetha Eliya.", none⟩,
     ⟨"Galway\x27s Land National Park", "National Park", 40, "Small national park ideal for birdwatching, nature walks, and endemic species.", none⟩,
     ⟨"Pedro Tea Estate", "Tea Factory", 43, "One of Sri Lanka\x27s oldest tea factories offering guided tours and tea tasting.", none⟩]),
   ("Ella",
    [⟨"Nine Arch Bridge", "Bridge", 48, "Iconic colonial-era railway bridge amidst tea plantations, perfect for photography.", none⟩,
     ⟨"Little Adam\x27s Peak", "Hiking Trail", 47, "Easy hike with panoramic views of Ella Gap, mountains, and tea plantations.", none⟩,
     ⟨"Ravana Falls", "Waterfall", 45, "Beautiful cascading waterfall associated with the Ramayana legend, 25m high.", none⟩,
     ⟨"Ella Rock", "Hiking Trail", 46, "Challenging hike with breathtaking views of surrounding hills and valleys.", none⟩,
     ⟨"Ella Spice Garden", "Garden", 43, "Educational tour of Sri Lankan spices, herbs, and traditional Ayurvedic plants.", none⟩,
     ⟨"Ravana\x27s Cave", "Cave", 42, "Historical cave associated with the Ramayana epic, located on cliffs near Ella.", none⟩,
     ⟨"Ella Village", "Village", 44, "Charming mountain village with cafes, guesthouses, local shops, and friendly atmosphere.", none⟩,
     ⟨"Demodara Loop", "Railway Engineering", 43, "Famous spiral railway loop engineering marvel, train passes over itself.", none⟩,
     ⟨"Ella Gap Viewpoint", "Viewpoint", 45, "Spectacular views of the valley, southern plains, and distant mountains.", none⟩,
     ⟨"Ella Train Station", "Railway Station", 41, "Picturesque railway station with colonial architecture and mountain views.", none⟩]),
   ("Badulla",
    [⟨"Dunhinda Falls", "Waterfall", 46, "Magnificent 64m high waterfall, one of Sri Lanka\x27s most beautiful waterfalls.", none⟩,
     ⟨"Muthiyangana Raja Maha Viharaya", "Buddhist Temple", 43, "Ancient temple believed to be visited by Lord Buddha, important pilgrimage site.", none⟩,
     ⟨"Badulla Park", "Park", 41, "Central park in Badulla town with gardens, walking paths, and colonial atmosphere.", none⟩,
     ⟨"St. Mark\x27s Church", "Church", 40, "Historic Anglican church built in 1857 with beautiful architecture and stained glass.", none⟩,
     ⟨"Bogoda Wooden Bridge", "Bridge", 44, "Ancient wooden bridge from 16th century, oldest surviving wooden bridge in Sri Lanka.", none⟩,
     ⟨"Halpewatte Tea Factory", "Tea Factory", 42, "Tea factory offering tours of tea processing and tasting of Uva region tea.", none⟩,
     ⟨"Badulla Market", "Market", 40, "Local market with fresh produce, spices, and goods from surrounding hill country.", none⟩,
     ⟨"Uma Oya", "River", 42, "Scenic river valley with waterfalls, hiking trails, and natural swimming spots.", none⟩,
     ⟨"Kandyan Dance Show", "Cultural Show", 43, "Traditional Kandyan dance performances showcasing Sri Lankan culture.", none⟩,
     ⟨"Badulla Railway Station", "Railway Station", 41, "Historic railway station at end of famous Colombo-Badulla train route.", none⟩]),
   ("Bandarawela",
    [⟨"Dowa Rock Temple", "Buddhist Temple", 44, "Ancient rock temple with unfinished Buddha carving and cave paintings.", none⟩,
     ⟨"Bandarawela Town", "Town", 42, "Charming hill station town with colonial architecture and cool climate.", none⟩,
     ⟨"Adisham Bungalow", "Historic House", 43, "English country house style monastery with beautiful gardens and architecture.", none⟩,
     ⟨"Lipton\x27s Seat", "Viewpoint", 47, "Famous viewpoint where Sir Thomas Lipton surveyed his tea empire, panoramic views.", none⟩,
     ⟨"St. Andrew\x27s Church", "Church", 41, "Historic church built in 1908 with beautiful stained glass and architecture.", none⟩,
     ⟨"Bandarawela Golf Club", "Golf Course", 42, "9-hole golf course with mountain views and challenging terrain.", none⟩,
     ⟨"Bandarawela Market", "Market", 40, "Local market with fresh hill country vegetables, fruits, and local products.", none⟩,
     ⟨"Diyaluma Falls", "Waterfall", 45, "Second highest waterfall in Sri Lanka (220m), with natural infinity pools at top.", none⟩,
     ⟨"Bandarawela Railway Station", "Railway Station", 41, "Historic railway station on Main Line, beautiful mountain setting.", none⟩,
     ⟨"Haputale", "Nearby Town", 43, "Nearby hill town with tea plantations and stunning views of southern plains.", none⟩]),
   ("Hatton",
    [⟨"Adam\x27s Peak", "Mountain", 48, "Sacred mountain pilgrimage site with sunrise views and Buddha\x27s footprint shrine.", none⟩,
     ⟨"St. Clair\x27s Falls", "Waterfall", 45, "Widest waterfall in Sri Lanka, known as \x27Little Niagara of Sri Lanka\x27.", none⟩,
     ⟨"Devon Falls", "Waterfall", 44, "97m high waterfall named after English coffee planter, visible from main road.", none⟩,
     ⟨"Hatton Town", "Town", 41, "Main town serving Adam\x27s Peak pilgrims and surrounding tea plantations.", none⟩,
     ⟨"Castlereagh Reservoir", "Reservoir", 43, "Beautiful reservoir surrounded by tea plantations, perfect for photography.", none⟩,
     ⟨"Gartmore Falls", "Waterfall", 42, "Lesser-known waterfall near Hatton, accessible through tea estate paths.", none⟩,
     ⟨"Tea Plantation Tours", "Plantation", 44, "Guided tours of tea estates to learn about tea production and processing.", none⟩,
     ⟨"Hatton Market", "Market", 40, "Local market serving hill country communities with fresh produce and goods.", none⟩,
     ⟨"Laxapana Falls", "Waterfall", 43, "129m high waterfall, one of Sri Lanka\x27s highest, located near hydro power station.", none⟩,
     ⟨"Adam\x27s Peak Base Camps", "Pilgrimage Site", 42, "Starting points for Adam\x27s Peak pilgrimage with guesthouses and facilities.", none⟩]),
   ("Sigiriya",
    [⟨"Sigiriya Rock Fortress", "Archaeological Site", 49, "UNESCO World Heritage site, ancient rock fortress with frescoes, gardens, and palace ruins.", none⟩,
     ⟨"Pidurangala Rock", "Hiking Trail", 47, "Alternative hike with best views of Sigiriya Rock, especially at sunrise.", none⟩,
     ⟨"Sigiriya Museum", "Museum", 42, "Modern museum explaining Sigiriya\x27s history, archaeology, and conservation efforts.", none⟩,
     ⟨"Sigiriya Frescoes", "Ancient Art", 46, "Famous ancient paintings of celestial maidens in sheltered rock pocket.", none⟩,
     ⟨"Mirror Wall", "Archaeological Feature", 43, "Ancient polished wall with historical graffiti from 8th-10th centuries.", none⟩,
     ⟨"Water Gardens", "Gardens", 44, "Sophisticated ancient hydraulic engineering with pools, fountains, and gardens.", none⟩,
     ⟨"Lion\x27s Paw Terrace", "Archaeological Feature", 45, "Remains of the giant lion statue that formed entrance to summit palace.", none⟩,
     ⟨"Boulder Gardens", "Gardens", 42, "Ancient garden complex with natural boulders, pathways, and pavilions.", none⟩,
     ⟨"Sigiriya Village Tour", "Cultural Tour", 43, "Cultural tours of local villages to experience traditional Sri Lankan life.", none⟩,
     ⟨"Elephant Safari", "Wildlife Safari", 44, "Elephant back safaris through surrounding forests and countryside.", none⟩]),
   ("Dambulla",
    [⟨"Dambulla Cave Temple", "Buddhist Temple", 48, "UNESCO World Heritage site with five caves containing Buddha statues and murals.", none⟩,
     ⟨"Golden Temple of Dambulla", "Buddhist Temple", 44, "Large golden Buddha statue and museum at base of cave temple complex.", none⟩,
     ⟨"Rose Quartz Mountain", "Mountain", 43, "Unique mountain with rose quartz deposits and hiking trails with panoramic views.", none⟩,
     ⟨"Ibbankatuwa Megalithic Tombs", "Archaeological Site", 40, "Ancient burial site dating back to 700 BC with stone arrangements.", none⟩,
     ⟨"Dambulla Market", "Market", 41, "Vibrant local market with spices, fruits, vegetables, and local products.", none⟩,
     ⟨"Na Uyana Aranya", "Forest Monastery", 45, "Large forest monastery with meditation opportunities and peaceful surroundings.", none⟩,
     ⟨"Dambulla Dedicated Economic Centre", "Market", 40, "Large wholesale market for fruits and vegetables from surrounding farms.", none⟩,
     ⟨"Spice Gardens", "Garden", 42, "Educational tours of spice gardens showcasing Sri Lankan spices and herbs.", none⟩,
     ⟨"Kandalama Hotel", "Architecture", 46, "Iconic hotel designed by Geoffrey Bawa, blending with natural landscape.", none⟩,
     ⟨"Dambulla Cricket Stadium", "Sports Venue", 41, "International cricket stadium hosting test matches and one-day internationals.", none⟩]),
   ("Polonnaruwa",
    [⟨"Ancient City of Polonnaruwa", "Archaeological Site", 48, "UNESCO World Heritage site with well-preserved ancient ruins of Sri Lanka\x27s medieval capital.", none⟩,
     ⟨"Gal Vihara", "Buddhist Statues", 47, "Famous rock temple with four magnificent Buddha statues carved from single granite rock.", none⟩,
     ⟨"Parakrama Samudra", "Ancient Reservoir", 45, "Massive ancient reservoir built by King Parakramabahu, covering 2,500 hectares.", none⟩,
     ⟨"Polonnaruwa Vatadage", "Ancient Structure", 46, "Circular relic house with intricate stone carvings and moonstones.", none⟩,
     ⟨"Lankatilaka Temple", "Buddhist Temple", 44, "Imposing brick temple with massive Buddha statue and architectural grandeur.", none⟩,
     ⟨"Royal Palace Complex", "Archaeological Site", 43, "Ruins of the ancient royal palace, council chamber, and royal baths.", none⟩,
     ⟨"Archaeological Museum", "Museum", 41, "Museum showcasing artifacts, sculptures, and information from Polonnaruwa period.", none⟩,
     ⟨"Shiva Devale", "Hindu Temple", 42, "Ancient Hindu temples showing South Indian architectural influence.", none⟩,
     ⟨"Statue of King Parakramabahu", "Monument", 43, "Stone statue believed to be King Parakramabahu I holding a palm-leaf manuscript.", none⟩,
     ⟨"Polonnaruwa Quadrangle", "Archaeological Site", 45, "Sacred quadrangle containing most important religious monuments in compact area.", none⟩]),
   ("Anuradhapura",
    [⟨"Sacred City of Anuradhapura", "Archaeological Site", 48, "UNESCO World Heritage site, ancient capital with sacred Buddhist sites dating to 4th century BC.", none⟩,
     ⟨"Sri Maha Bodhi", "Sacred Tree", 49, "Oldest historically documented tree in the world, grown from Buddha\x27s enlightenment tree branch.", none⟩,
     ⟨"Ruwanwelisaya Stupa", "Buddhist Stupa", 47, "Massive white stupa built by King Dutugemunu, one of Sri Lanka\x27s most revered.", none⟩,
     ⟨"Jetavanaramaya Stupa", "Buddhist Stupa", 46, "One of the tallest ancient structures in the world when built (122m).", none⟩,
     ⟨"Abhayagiri Monastery", "Monastery Complex", 45, "Ancient monastery complex with museum, twin ponds, and massive stupa.", none⟩,
     ⟨"Isurumuniya Temple", "Buddhist Temple", 44, "Rock temple famous for its rock carvings including \x27Isurumuniya Lovers\x27.", none⟩,
     ⟨"Samadhi Buddha Statue", "Buddhist Statue", 46, "Famous granite Buddha statue in meditation pose, considered masterpiece of ancient sculpture.", none⟩,
     ⟨"Kuttam Pokuna", "Ancient Ponds", 43, "Twin ponds showcasing ancient Sinhalese engineering and symmetry.", none⟩,
     ⟨"Mihintale", "Sacred Mountain", 47, "Birthplace of Buddhism in Sri Lanka, pilgrimage site with temples and stupas.", none⟩,
     ⟨"Archaeological Museum", "Museum", 42, "Museum showcasing artifacts from Anuradhapura period and explaining site\x27s history.", none⟩]),
   ("Trincomalee",
    [⟨"Nilaveli Beach", "Beach", 47, "One of Sri Lanka\x27s most beautiful beaches with white sand and clear turquoise water.", none⟩,
     ⟨"Pigeon Island National Park", "National Park", 46, "Marine national park ideal for snorkeling, diving, and coral reef exploration.", none⟩,
     ⟨"Fort Frederick", "Fort", 43, "Historic fort built by Portuguese and expanded by Dutch, now housing military base.", none⟩,
     ⟨"Koneswaram Temple", "Hindu Temple", 45, "Ancient Hindu temple complex on Swami Rock with panoramic ocean views.", none⟩,
     ⟨"Marble Beach", "Beach", 44, "Secluded beach with marble-like sand and crystal clear water, within Air Force base.", none⟩,
     ⟨"Uppuveli Beach", "Beach", 43, "Long sandy beach popular for swimming, water sports, and beachfront accommodation.", none⟩,
     ⟨"Trinco Whale Watching", "Wildlife Tour", 45, "Whale watching tours in the Bay of Bengal to spot blue whales and dolphins.", none⟩,
     ⟨"Lovers\x27 Leap", "Viewpoint", 42, "Cliff viewpoint with tragic love story legend and ocean views.", none⟩,
     ⟨"Trincomalee War Cemetery", "Memorial", 41, "Commonwealth war cemetery honoring soldiers from World War II.", none⟩,
     ⟨"Trincomalee Harbor", "Harbor", 40, "One of world\x27s finest natural harbors, fifth largest natural harbor globally.", none⟩]),
   ("Batticaloa",
    [⟨"Batticaloa Lagoon", "Lagoon", 44, "Sri Lanka\x27s second largest lagoon, perfect for boat rides, birdwatching, and sunset views.", none⟩,
     ⟨"Kallady Bridge", "Bridge", 42, "Iconic Dutch-era bridge connecting Batticaloa town to Kallady, known for singing fish phenomenon.", none⟩,
     ⟨"Batticaloa Fort", "Fort", 43, "Dutch fort built in 1628, overlooking the lagoon with historical significance and architecture.", none⟩,
     ⟨"Pasikudah Beach", "Beach", 46, "One of Sri Lanka\x27s finest beaches with shallow turquoise waters, perfect for swimming.", none⟩,
     ⟨"Kalkudah Beach", "Beach", 45, "Long, flat beach ideal for swimming, windsurfing, and water sports with gentle waves.", none⟩,
     ⟨"St. Mary\x27s Cathedral", "Church", 42, "Beautiful Catholic cathedral with impressive architecture in heart of Batticaloa.", none⟩,
     ⟨"Batticaloa Lighthouse", "Lighthouse", 41, "Historic lighthouse on edge of Batticaloa Lagoon with panoramic views.", none⟩,
     ⟨"Navatkuli Bridge", "Bridge", 40, "British-era bridge with scenic views of lagoon and surrounding landscape.", none⟩,
     ⟨"Koddamunai Hindu Temple", "Hindu Temple", 43, "Prominent Hindu temple showcasing Tamil architecture and cultural significance.", none⟩,
     ⟨"Batticaloa Dutch Bar Heritage Museum", "Museum", 41, "Museum in restored Dutch-era building showcasing colonial history and artifacts.", none⟩]),
   ("Pasikudah",
    [⟨"Pasikudah Beach", "Beach", 47, "Famous for its shallow, calm turquoise waters extending 100-200m from shore, perfect for swimming.", none⟩,
     ⟨"Coral Reefs", "Marine Life", 45, "Protected coral reefs ideal for snorkeling and observing marine biodiversity.", none⟩,
     ⟨"Kalkudah Beach", "Beach", 46, "Adjacent beach with similar shallow waters, less developed and more natural.", none⟩,
     ⟨"Water Sports Center", "Adventure Sports", 43, "Jet skiing, banana boat rides, kayaking, and other water activities.", none⟩,
     ⟨"Beach Resorts", "Accommodation", 44, "Luxury beachfront resorts with spa facilities, pools, and fine dining.", none⟩,
     ⟨"Sunset Views", "Viewpoint", 46, "Spectacular sunsets over Bay of Bengal with colors reflecting on calm waters.", none⟩,
     ⟨"Beach Walks", "Beach Activity", 44, "Long, peaceful walks along pristine shoreline, especially enjoyable at sunrise.", none⟩,
     ⟨"Local Fishing Village", "Cultural Experience", 42, "Visit traditional fishing village to see local lifestyle and fishing techniques.", none⟩,
     ⟨"Beachfront Dining", "Dining", 43, "Restaurants serving fresh seafood with beach views and ocean breeze.", none⟩,
     ⟨"Paddle Boarding", "Water Sport", 44, "Stand-up paddle boarding in calm, shallow waters suitable for beginners.", none⟩]),
   ("Arugam Bay",
    [⟨"Arugam Bay Beach", "Beach", 47, "World-class surfing destination with consistent waves, laid-back vibe, and beautiful beach.", none⟩,
     ⟨"Pottuvil Point", "Surf Spot", 46, "Famous surfing point break for experienced surfers, best during April-October season.", none⟩,
     ⟨"Lahugala National Park", "National Park", 43, "Elephant sanctuary with natural water holes, birdwatching, and wildlife.", none⟩,
     ⟨"Muhudu Maha Viharaya", "Buddhist Temple", 42, "Ancient temple with beachfront location and archaeological significance.", none⟩,
     ⟨"Elephant Rock", "Viewpoint", 44, "Hiking spot with panoramic views of Arugam Bay and surrounding coastline.", none⟩,
     ⟨"Panama Beach", "Beach", 45, "Secluded beach ideal for swimming, relaxation, and escaping crowds.", none⟩,
     ⟨"Surf Schools", "Surfing Lessons", 45, "Professional surf schools offering lessons for beginners and intermediate surfers.", none⟩,
     ⟨"Crocodile Rock", "Surf Spot", 44, "Surfing spot named for crocodile-shaped rock formation, suitable for experienced surfers.", none⟩,
     ⟨"Arugam Bay Lagoon", "Lagoon", 43, "Calm lagoon perfect for kayaking, paddle boarding, and birdwatching.", none⟩,
     ⟨"Beach Bars", "Nightlife", 42, "Beachfront bars and restaurants with live music, bonfires, and international cuisine.", none⟩]),
   ("Jaffna",
    [⟨"Jaffna Fort", "Fort", 44, "Dutch fort built in 1680, one of best preserved Dutch forts in Sri Lanka.", none⟩,
     ⟨"Nallur Kandaswamy Temple", "Hindu Temple", 47, "Large Hindu temple complex, most significant in Jaffna, famous for annual festival.", none⟩,
     ⟨"Jaffna Public Library", "Library", 43, "Iconic library symbolizing Tamil heritage and revival, rebuilt after 1981 fire.", none⟩,
     ⟨"Nagadeepa Purana Viharaya", "Buddhist Temple", 45, "Ancient Buddhist temple on Nagadeepa Island, accessible by ferry.", none⟩,
     ⟨"Keerimalai Springs", "Natural Springs", 42, "Natural freshwater springs with separate bathing ponds for men and women.", none⟩,
     ⟨"Jaffna Market", "Market", 41, "Bustling local market with fresh produce, Tamil sweets, and cultural experience.", none⟩,
     ⟨"Casuarina Beach", "Beach", 43, "Beautiful beach with casuarina trees, ideal for sunset walks and relaxation.", none⟩,
     ⟨"Point Pedro", "Town", 42, "Northernmost point of Sri Lanka with lighthouse and fishing harbor.", none⟩,
     ⟨"Kankesanturai Beach", "Beach", 43, "Pristine beach near Kankesanturai port, less crowded with natural beauty.", none⟩,
     ⟨"Jaffna Archaeological Museum", "Museum", 40, "Museum showcasing artifacts from Jaffna kingdom and Hindu cultural heritage.", none⟩]),
   ("Mannar",
    [⟨"Adam\x27s Bridge", "Natural Formation", 45, "Chain of limestone shoals between India and Sri Lanka, visible from Mannar.", none⟩,
     ⟨"Mannar Fort", "Fort", 42, "Portuguese then Dutch fort overlooking Gulf of Mannar, built in 1560.", none⟩,
     ⟨"Baobab Tree", "Tree", 44, "Ancient baobab tree believed to be 700 years old, brought by Arab traders.", none⟩,
     ⟨"Mannar Island", "Island", 43, "Island connected to mainland by causeway, known for salt production and fishing.", none⟩,
     ⟨"Thanthirimale Temple", "Buddhist Temple", 43, "Ancient temple with rock inscriptions and connections to arrival of Buddhism.", none⟩,
     ⟨"Giant\x27s Tank", "Reservoir", 41, "Ancient irrigation tank built by King Dhatusena in 5th century AD.", none⟩,
     ⟨"Mannar Beach", "Beach", 42, "Long, windy beach with shell collecting opportunities and sunset views.", none⟩,
     ⟨"Our Lady of Madhu Church", "Church", 44, "Important Catholic pilgrimage site with shrine of Our Lady of Madhu.", none⟩,
     ⟨"Mannar Market", "Market", 40, "Local market with seafood, dry fish, and products unique to Mannar region.", none⟩,
     ⟨"Birdwatching Sites", "Bird Sanctuary", 43, "Important area for migratory birds including flamingos during season.", none⟩]),
   ("Vavuniya",
    [⟨"Vavuniya Museum", "Museum", 41, "Local museum showcasing artifacts and information about Vavuniya region.", none⟩,
     ⟨"Kandasamy Kovil", "Hindu Temple", 42, "Prominent Hindu temple in Vavuniya with colorful architecture.", none⟩,
     ⟨"Vavuniya Tank", "Reservoir", 40, "Ancient irrigation tank providing water to surrounding agricultural areas.", none⟩,
     ⟨"Pandivirichchan Thermal Springs", "Hot Springs", 43, "Natural thermal springs believed to have medicinal properties.", none⟩,
     ⟨"Vavuniya Market", "Market", 40, "Main market serving northern region with diverse goods and produce.", none⟩,
     ⟨"Sivapuram Temple", "Hindu Temple", 41, "Ancient temple with cultural and religious significance.", none⟩,
     ⟨"Vavuniya Town", "Town", 40, "Gateway town to northern province with administrative and commercial importance.", none⟩,
     ⟨"Agriculture Farms", "Farm", 41, "Visit local farms to see cultivation of crops like onions, chilies, and grains.", none⟩,
     ⟨"Community Projects", "Cultural Experience", 42, "Community-based tourism initiatives showcasing local life and traditions.", none⟩,
     ⟨"Historical Sites", "Archaeological Site", 41, "Various historical sites reflecting region\x27s diverse cultural heritage.", none⟩]),
   ("Yala",
    [⟨"Yala National Park", "National Park", 48, "Sri Lanka\x27s most famous wildlife park for leopard and elephant sightings, diverse ecosystems.", none⟩,
     ⟨"Sithulpawwa Rajamaha Viharaya", "Buddhist Monastery", 44, "Ancient rock temple with archaeological significance and meditation caves.", none⟩,
     ⟨"Kumana National Park", "National Park", 46, "Birdwatcher\x27s paradise adjacent to Yala, known for migratory birds and lagoons.", none⟩,
     ⟨"Patangala", "Archaeological Site", 42, "Ancient cave complex with Brahmi inscriptions and archaeological importance.", none⟩,
     ⟨"Yala Safari Experience", "Wildlife Safari", 47, "Jeep safaris to spot leopards, elephants, sloth bears, and diverse wildlife.", none⟩,
     ⟨"Yala Village", "Local Village", 40, "Experience local culture and traditional Sri Lankan life in nearby villages.", none⟩,
     ⟨"Yala Beach", "Beach", 43, "Pristine beach within Yala National Park with nesting turtles.", none⟩,
     ⟨"Buttala", "Town", 39, "Nearby town with local markets, temples, and cultural sites.", none⟩,
     ⟨"Magul Maha Viharaya", "Buddhist Temple", 42, "Ancient temple believed to be where King Kavantissa married Princess Viharamahadevi.", none⟩,
     ⟨"Wildlife Photography", "Photography", 46, "Excellent opportunities for wildlife photography with professional guides.", none⟩]),
   ("Udawalawe",
    [⟨"Udawalawe National Park", "National Park", 47, "Best place in Sri Lanka to see elephants in large herds, also home to other wildlife.", none⟩,
     ⟨"Udawalawe Elephant Transit Home", "Conservation Center", 46, "Elephant orphanage where baby elephants are cared for before release to wild.", none⟩,
     ⟨"Udawalawe Reservoir", "Reservoir", 44, "Large irrigation reservoir attracting birds and wildlife, scenic views.", none⟩,
     ⟨"Safari Tours", "Wildlife Safari", 47, "Jeep safaris through national park to see elephants, birds, and other animals.", none⟩,
     ⟨"Birdwatching", "Bird Sanctuary", 45, "Excellent birdwatching with over 200 bird species including many endemic.", none⟩,
     ⟨"Elephant Feeding", "Wildlife Experience", 43, "Observe feeding times at elephant transit home (3 times daily).", none⟩,
     ⟨"Butterfly Park", "Park", 41, "Park showcasing Sri Lanka\x27s diverse butterfly species and their life cycles.", none⟩,
     ⟨"Local Villages", "Cultural Experience", 42, "Visit traditional villages to see rural Sri Lankan life and agriculture.", none⟩,
     ⟨"Scenic Drives", "Scenic Route", 43, "Beautiful drives through rural landscapes and reservoir views.", none⟩,
     ⟨"Conservation Education", "Educational", 44, "Educational programs about elephant conservation and wildlife protection.", none⟩]),
   ("Wilpattu",
    [⟨"Wilpattu National Park", "National Park", 47, "Sri Lanka\x27s largest national park known for natural lakes (villus) and leopard sightings.", none⟩,
     ⟨"Safari Tours", "Wildlife Safari", 46, "Full-day jeep safaris to explore diverse habitats and spot wildlife.", none⟩,
     ⟨"Leopard Tracking", "Wildlife Experience", 45, "Specialized tours focusing on leopard sightings and behavior observation.", none⟩,
     ⟨"Birdwatching", "Bird Sanctuary", 44, "Over 200 bird species including many migratory and endemic birds.", none⟩,
     ⟨"Natural Lakes (Villus)", "Lakes", 43, "Characteristic natural lakes that give Wilpattu its name (Land of Lakes).", none⟩,
     ⟨"Kudiramalai Point", "Historical Site", 42, "Historical site with archaeological significance and ocean views.", none⟩,
     ⟨"Ancient Ruins", "Archaeological Site", 41, "Remains of ancient civilizations within park boundaries.", none⟩,
     ⟨"Wildlife Photography", "Photography", 46, "Excellent opportunities for wildlife and landscape photography.", none⟩,
     ⟨"Camping", "Camping", 43, "Wildlife camping experiences within designated areas of the park.", none⟩,
     ⟨"Conservation Areas", "Conservation", 44, "Protected areas showcasing Sri Lanka\x27s commitment to wildlife conservation.", none⟩]),
   ("Kitulgala",
    [⟨"White Water Rafting", "Adventure Sports", 47, "Sri Lanka\x27s best white water rafting on Kelani River with Grade 2-3 rapids.", none⟩,
     ⟨"Belilena Cave", "Cave", 44, "Archaeological cave where 12,000-year-old human remains were discovered.", none⟩,
     ⟨"Kitulgala Forest Reserve", "Forest Reserve", 45, "Beautiful rainforest area with hiking trails and biodiversity.", none⟩,
     ⟨"The Bridge on the River Kwai", "Film Location", 43, "Location where 1957 film was shot, though bridge was destroyed for film.", none⟩,
     ⟨"Waterfall Abseiling", "Adventure Sports", 46, "Abseiling down waterfalls in surrounding jungle areas.", none⟩,
     ⟨"Jungle Trekking", "Hiking Trail", 44, "Guided treks through rainforest to see wildlife and waterfalls.", none⟩,
     ⟨"Birdwatching", "Bird Sanctuary", 43, "Excellent birdwatching with many endemic Sri Lankan species.", none⟩,
     ⟨"Canyoning", "Adventure Sports", 45, "Canyoning adventures combining climbing, swimming, and jumping.", none⟩,
     ⟨"Kayaking", "Water Sport", 44, "Kayaking on Kelani River through scenic gorges and rapids.", none⟩,
     ⟨"Camping", "Camping", 43, "Riverside camping experiences with bonfires and nature immersion.", none⟩]),
   ("Ratnapura",
    [⟨"Gem Mines", "Mine", 45, "Visit working gem mines to see extraction of precious stones including sapphires and rubies.", none⟩,
     ⟨"Gemological Museum", "Museum", 43, "Museum showcasing Sri Lanka\x27s gem industry, history, and precious stones.", none⟩,
     ⟨"Sinharaja Forest Reserve", "Forest Reserve", 47, "UNESCO World Heritage site, biodiversity hotspot with endemic species.", none⟩,
     ⟨"Bopath Falls", "Waterfall", 44, "Waterfall shaped like Bo leaf (sacred fig), 30m high with pool for swimming.", none⟩,
     ⟨"Ratnapura Market", "Market", 42, "Famous gem market where traders buy and sell precious stones.", none⟩,
     ⟨"Mahaweli River", "River", 41, "Longest river in Sri Lanka, scenic spots for picnics and river baths.", none⟩,
     ⟨"Gem Cutting Workshops", "Workshop", 43, "See traditional gem cutting and polishing techniques by skilled artisans.", none⟩,
     ⟨"Ancient Temples", "Buddhist Temple", 42, "Several ancient temples in and around Ratnapura with historical significance.", none⟩,
     ⟨"Tea Estates", "Plantation", 43, "Tea plantations in surrounding hills producing quality low-grown tea.", none⟩,
     ⟨"Agricultural Farms", "Farm", 41, "Farms producing spices, fruits, and vegetables in fertile Ratnapura region.", none⟩]),
   ("Kalutara",
    [⟨"Kalutara Bodhiya", "Buddhist Temple", 44, "Sacred Bodhi tree and temple complex with beautiful white stupa.", none⟩,
     ⟨"Kalutara Beach", "Beach", 43, "Long sandy beach popular for swimming, sunset views, and water sports.", none⟩,
     ⟨"Richmond Castle", "Historic House", 42, "Colonial mansion built in 1896, now cultural center with gardens.", none⟩,
     ⟨"Kalu Ganga River", "River", 41, "River trips and fishing experiences on Kalutara\x27s namesake river.", none⟩,
     ⟨"Fa Hien Cave", "Cave", 43, "Archaeological cave where remains of prehistoric humans were discovered.", none⟩,
     ⟨"Kalutara Temple", "Buddhist Temple", 42, "Hollow stupa containing smaller stupa inside, unique architectural feature.", none⟩,
     ⟨"Water Sports", "Adventure Sports", 43, "Jet skiing, banana boat rides, and other beach activities.", none⟩,
     ⟨"Local Markets", "Market", 40, "Markets selling fresh seafood, local produce, and handicrafts.", none⟩,
     ⟨"Sunset Cruises", "Boat Tour", 44, "Boat trips on Kalu Ganga River during sunset hours.", none⟩,
     ⟨"Garden Restaurants", "Dining", 42, "Riverside and garden restaurants serving fresh seafood and local cuisine.", none⟩]),
   ("Beruwala",
    [⟨"Beruwala Beach", "Beach", 44, "Long golden beach with calm waters, popular for swimming and family vacations.", none⟩,
     ⟨"Kande Viharaya", "Buddhist Temple", 45, "Temple with giant standing Buddha statue, important Buddhist site.", none⟩,
     ⟨"Barberyn Lighthouse", "Lighthouse", 43, "Historic lighthouse on small island, accessible during low tide.", none⟩,
     ⟨"Masjid-ul-Abrar", "Mosque", 42, "One of Sri Lanka\x27s oldest mosques, built by Arab traders in 920 AD.", none⟩,
     ⟨"Water Sports Center", "Adventure Sports", 43, "Various water activities including jet skiing, parasailing, and boat rides.", none⟩,
     ⟨"Moragalla Beach", "Beach", 44, "Less crowded beach section with pristine sand and clear water.", none⟩,
     ⟨"Traditional Fishing", "Cultural Experience", 42, "Observe traditional stilt fishing and local fishing techniques.", none⟩,
     ⟨"Spice Garden Tours", "Garden", 41, "Educational tours of spice gardens showcasing Sri Lankan spices.", none⟩,
     ⟨"Beach Resorts", "Accommodation", 43, "Range of beachfront resorts with amenities and ocean views.", none⟩,
     ⟨"Local Crafts", "Shopping", 40, "Purchase traditional Sri Lankan crafts, batik, and souvenirs.", none⟩]),
   ("Chilaw",
    [⟨"Munneswaram Temple", "Hindu Temple", 45, "Important Hindu temple complex dedicated to Lord Shiva, pilgrimage site.", none⟩,
     ⟨"Chilaw Beach", "Beach", 42, "Fishing beach with colorful boats, fresh seafood, and local atmosphere.", none⟩,
     ⟨"St. Mary\x27s Church", "Church", 41, "Historic church with beautiful architecture and religious significance.", none⟩,
     ⟨"Chilaw Fishing Harbor", "Harbor", 40, "Active fishing harbor where daily catch is brought in and auctioned.", none⟩,
     ⟨"Anawilundawa Bird Sanctuary", "Bird Sanctuary", 44, "Ramsar wetland site with diverse birdlife including migratory species.", none⟩,
     ⟨"Dutch Church", "Church", 40, "Remains of Dutch colonial church with historical significance.", none⟩,
     ⟨"Crab Farming", "Aquaculture", 42, "Visit crab farms to see mud crab cultivation and processing.", none⟩,
     ⟨"Local Cuisine", "Dining", 43, "Fresh seafood restaurants specializing in crab and fish dishes.", none⟩,
     ⟨"Traditional Industries", "Cultural Experience", 41, "See traditional industries like coir making and fishing net weaving.", none⟩,
     ⟨"Paddy Fields", "Agricultural Landscape", 42, "Extensive paddy fields surrounding Chilaw, important rice growing area.", none⟩]),
   ("Puttalam",
    [⟨"Puttalam Lagoon", "Lagoon", 43, "Extensive lagoon system with mangrove forests and birdwatching opportunities.", none⟩,
     ⟨"Kalpitiya Beach", "Beach", 45, "Long sandy beach popular for kitesurfing, windsurfing, and dolphin watching.", none⟩,
     ⟨"Wilpattu National Park", "National Park", 46, "Access to Sri Lanka\x27s largest national park from Puttalam side.", none⟩,
     ⟨"Dutch Canal", "Canal", 41, "Historic canal built by Dutch connecting Puttalam to Colombo.", none⟩,
     ⟨"St. Anne\x27s Church", "Church", 42, "Historic church in Talawila, important Catholic pilgrimage site.", none⟩,
     ⟨"Kitesurfing Centers", "Adventure Sports", 45, "Professional kitesurfing schools and equipment rentals in Kalpitiya.", none⟩,
     ⟨"Dolphin Watching", "Wildlife Tour", 44, "Boat tours to see large pods of dolphins in Kalpitiya waters.", none⟩,
     ⟨"Salt Pans", "Industry", 41, "Traditional salt production using evaporation ponds, important local industry.", none⟩,
     ⟨"Mangrove Forests", "Forest", 42, "Boat tours through mangrove ecosystems with diverse flora and fauna.", none⟩,
     ⟨"Fishing Villages", "Cultural Experience", 41, "Visit traditional fishing communities along Puttalam coastline.", none⟩]),
   ("Matara",
    [⟨"Star Fort", "Fort", 43, "Unique star-shaped Dutch fort built in 1765, now housing museum.", none⟩,
     ⟨"Matara Paravi Duwa Temple", "Buddhist Temple", 42, "Temple on small island connected by bridge, picturesque setting.", none⟩,
     ⟨"Polhena Beach", "Beach", 44, "Sheltered beach with coral reef, ideal for snorkeling and safe swimming.", none⟩,
     ⟨"Weherahena Temple", "Buddhist Temple", 45, "Unique temple with tunnel depicting Buddhist hell and heaven scenes.", none⟩,
     ⟨"Matara Beach", "Beach", 43, "Main beach area with promenade, restaurants, and sunset views.", none⟩,
     ⟨"Dutch Reformed Church", "Church", 41, "Historic Dutch church built in 1706, still in use today.", none⟩,
     ⟨"Nilwala River", "River", 42, "River trips and boat rides on Matara\x27s main river.", none⟩,
     ⟨"Local Markets", "Market", 40, "Vibrant markets selling fresh produce, seafood, and local goods.", none⟩,
     ⟨"Historical Museum", "Museum", 41, "Museum showcasing Matara\x27s history and cultural heritage.", none⟩,
     ⟨"Dondra Lighthouse", "Lighthouse", 42, "Southernmost point of Sri Lanka with lighthouse and ocean views.", none⟩]),
   ("Hambantota",
    [⟨"Yala National Park", "National Park", 47, "Access to famous Yala National Park from Hambantota side.", none⟩,
     ⟨"Hambantota Port", "Port", 41, "Deep sea port built with Chinese assistance, engineering marvel.", none⟩,
     ⟨"Mattala Rajapaksa International Airport", "Airport", 40, "Second international airport in Sri Lanka, interesting architecture.", none⟩,
     ⟨"Bundala National Park", "National Park", 44, "Ramsar wetland site important for migratory birds and wildlife.", none⟩,
     ⟨"Hambantota Cricket Stadium", "Sports Venue", 42, "International cricket stadium hosting major matches.", none⟩,
     ⟨"Bird Sanctuary", "Bird Sanctuary", 43, "Important area for birdwatching, especially wetland species.", none⟩,
     ⟨"Salt Pans", "Industry", 41, "Traditional salt production using natural evaporation.", none⟩,
     ⟨"Local Fisheries", "Industry", 40, "Fishing industry and fresh seafood markets.", none⟩,
     ⟨"Development Projects", "Modern Infrastructure", 41, "See modern infrastructure development in Hambantota region.", none⟩,
     ⟨"Rural Villages", "Cultural Experience", 42, "Traditional village life in southern Sri Lanka.", none⟩]),
   ("Ampara",
    [⟨"Lahugala National Park", "National Park", 43, "Elephant sanctuary with natural water holes and wildlife.", none⟩,
     ⟨"Deegawapiya Temple", "Buddhist Temple", 44, "Ancient temple believed to be visited by Lord Buddha.", none⟩,
     ⟨"Ampara Tank", "Reservoir", 41, "Large irrigation reservoir supporting agriculture in dry zone.", none⟩,
     ⟨"Gal Oya National Park", "National Park", 44, "Boat safaris to see elephants swimming between islands.", none⟩,
     ⟨"Senanayake Samudraya", "Reservoir", 43, "Largest reservoir in Sri Lanka, scenic and important for irrigation.", none⟩,
     ⟨"Ancient Buddhist Sites", "Archaeological Site", 42, "Several ancient Buddhist monasteries and ruins in Ampara district.", none⟩,
     ⟨"Agriculture Farms", "Farm", 41, "Visit farms growing rice, vegetables, and fruits in fertile Ampara region.", none⟩,
     ⟨"Local Markets", "Market", 40, "Markets serving agricultural communities in eastern Sri Lanka.", none⟩,
     ⟨"Traditional Crafts", "Crafts", 41, "Local crafts including pottery, weaving, and woodwork.", none⟩,
     ⟨"Cultural Diversity", "Cultural Experience", 42, "Experience multicultural society with Sinhalese, Tamil, and Muslim communities.", none⟩]),
   ("Monaragala",
    [⟨"Maligawila Buddha Statue", "Buddhist Statue", 44, "Ancient standing Buddha statue from 7th century, 11.5m tall.", none⟩,
     ⟨"Buddhangala Monastery", "Buddhist Monastery", 43, "Ancient forest monastery with archaeological remains and meditation opportunities.", none⟩,
     ⟨"Monaragala Town", "Town", 40, "Main town serving southeastern region with local markets and services.", none⟩,
     ⟨"Agricultural Areas", "Agricultural Landscape", 41, "Extensive agricultural lands growing rice, fruits, and vegetables.", none⟩,
     ⟨"Traditional Villages", "Cultural Experience", 42, "Visit traditional villages to see rural Sri Lankan life.", none⟩,
     ⟨"Natural Springs", "Natural Springs", 41, "Natural freshwater springs used by local communities.", none⟩,
     ⟨"Forest Areas", "Forest", 42, "Dry zone forests with hiking opportunities and wildlife.", none⟩,
     ⟨"Local Crafts", "Crafts", 40, "Traditional crafts including pottery, basket weaving, and wood carving.", none⟩,
     ⟨"Agricultural Markets", "Market", 41, "Markets selling agricultural produce from Monaragala region.", none⟩,
     ⟨"Rural Tourism", "Cultural Experience", 42, "Community-based tourism initiatives showcasing local culture.", none⟩]),
   ("Kurunegala",
    [⟨"Ethagala (Elephant Rock)", "Rock Formation", 43, "Large rock formation resembling elephant, landmark of Kurunegala.", none⟩,
     ⟨"Yapahuwa Rock Fortress", "Archaeological Site", 45, "Ancient rock fortress and palace with impressive staircase and architecture.", none⟩,
     ⟨"Panduwasnuwara", "Archaeological Site", 42, "Ancient capital with ruins, palace site, and Buddhist monuments.", none⟩,
     ⟨"Kurunegala Lake", "Lake", 41, "Artificial lake in town center with walking paths and gardens.", none⟩,
     ⟨"Ridi Viharaya", "Buddhist Temple", 44, "Ancient temple complex with silver deposits, historically significant.", none⟩,
     ⟨"Arankele Monastery", "Buddhist Monastery", 43, "Forest monastery with meditation caves and ancient ruins.", none⟩,
     ⟨"Local Markets", "Market", 40, "Busy markets serving northwestern province with diverse goods.", none⟩,
     ⟨"Agriculture", "Agricultural Landscape", 41, "Visit farms growing rice, coconut, and fruits in fertile region.", none⟩,
     ⟨"Historical Sites", "Archaeological Site", 42, "Several historical sites reflecting Kurunegala\x27s ancient importance.", none⟩,
     ⟨"Temple Circuit", "Religious Tour", 43, "Tour of important Buddhist temples in and around Kurunegala.", none⟩]),
   ("Kegalle",
    [⟨"Pinnawala Elephant Orphanage", "Conservation Center", 46, "World\x27s largest captive elephant herd, famous for elephant bathing and feeding times.", none⟩,
     ⟨"Elephant Bathing", "Wildlife Experience", 47, "Watch elephants bathing in river at scheduled times, popular photo opportunity.", none⟩,
     ⟨"Millennium Elephant Foundation", "Conservation Center", 44, "Elephant conservation and welfare organization offering educational programs.", none⟩,
     ⟨"Kegalle Town", "Town", 40, "Town serving central province with local markets and services.", none⟩,
     ⟨"Spice Gardens", "Garden", 42, "Educational tours of spice gardens showcasing Sri Lankan spices.", none⟩,
     ⟨"Traditional Industries", "Cultural Experience", 41, "See traditional industries like gem mining and agriculture.", none⟩,
     ⟨"Elephant Back Rides", "Wildlife Experience", 43, "Ethical elephant back rides through designated areas.", none⟩,
     ⟨"Local Markets", "Market", 40, "Markets selling local produce, spices, and handicrafts.", none⟩,
     ⟨"Rubber Plantations", "Plantation", 41, "Visit rubber plantations to see latex collection and processing.", none⟩,
     ⟨"Scenic Countryside", "Scenic Route", 42, "Beautiful drives through Kegalle\x27s hilly countryside and plantations.", none⟩]),
   ("Matale",
    [⟨"Aluvihara Rock Temple", "Buddhist Temple", 44, "Ancient cave temple where Buddhist scriptures were first written on palm leaves.", none⟩,
     ⟨"Matale Spice Gardens", "Garden", 43, "Educational tours of spice gardens in Sri Lanka\x27s spice capital.", none⟩,
     ⟨"Sri Muthumariamman Temple", "Hindu Temple", 42, "Colorful Hindu temple with impressive architecture and festivals.", none⟩,
     ⟨"Knuckles Mountain Range", "Mountain Range", 46, "UNESCO World Heritage site with hiking, waterfalls, and biodiversity.", none⟩,
     ⟨"Riverston", "Viewpoint", 45, "Spectacular viewpoint in Knuckles Range with panoramic mountain views.", none⟩,
     ⟨"Matale Market", "Market", 41, "Famous spice market with wide variety of fresh spices and herbs.", none⟩,
     ⟨"Ancient Temples", "Buddhist Temple", 42, "Several ancient Buddhist temples in and around Matale.", none⟩,
     ⟨"Spice Processing", "Industry", 42, "See traditional spice processing and packaging methods.", none⟩,
     ⟨"Hiking Trails", "Hiking Trail", 44, "Various hiking trails in Knuckles Range for different fitness levels.", none⟩,
     ⟨"Cultural Diversity", "Cultural Experience", 41, "Experience multicultural society with Buddhist, Hindu, and Muslim communities.", none⟩]),
   ("Weligama",
    [⟨"Weligama Beach", "Beach", 45, "Long sandy beach famous for surfing, stilt fishermen, and whale watching.", none⟩,
     ⟨"Stilt Fishermen", "Cultural Experience", 44, "Iconic traditional fishing method unique to Weligama area.", none⟩,
     ⟨"Surfing Lessons", "Surfing Lessons", 46, "Surf schools offering lessons for beginners in gentle waves.", none⟩,
     ⟨"Taprobane Island", "Island", 43, "Private island with luxury villa, accessible during low tide.", none⟩,
     ⟨"Whale Watching", "Wildlife Tour", 45, "Boat tours to see blue whales and dolphins from Weligama harbor.", none⟩,
     ⟨"Polhena Beach", "Beach", 44, "Sheltered beach with coral reef, ideal for snorkeling and safe swimming.", none⟩,
     ⟨"Local Markets", "Market", 41, "Markets selling fresh seafood, local produce, and handicrafts.", none⟩,
     ⟨"Beachfront Restaurants", "Dining", 43, "Restaurants serving fresh seafood with ocean views.", none⟩,
     ⟨"Water Sports", "Adventure Sports", 42, "Various water activities including kayaking and paddle boarding.", none⟩,
     ⟨"Sunset Views", "Viewpoint", 45, "Beautiful sunsets over Indian Ocean from Weligama beach.", none⟩])]

/-- The Streamlit `st.session_state.places_cache`, keyed by the string
f"{city}_{country}". -/
abbrev PlacesCache := List (String × List Place)

/-- The behaviour of every external collaborator `get_real_places`
touches, fixed for the duration of one call chain: the live geocoder,
the two provider API keys, and the two providers' responses (the
OpenTripMap radius search is a function of the coordinates and the
`limit` forwarded to it; the detail lookups are `otm_details`). -/
structure PlacesEnv where
  live_geocode : String → String → Option (Int × Int)
  otm_key : Option String
  otm_resp : Int × Int → Nat → Http (List (Option String))
  otm_details : String → Option Place
  fsq_key : Option String
  fsq_rand : Int
  fsq_resp : String → String → Http (List Venue)

/-- `get_real_places(city, country, limit)` (app.py): on a cache hit the
cached list is returned untouched; otherwise the city is geocoded, the
two providers are queried and concatenated, an empty concatenation is
replaced by the fallback table entry (or `[]` for an unknown city), and
the result is stored in the cache. -/
def get_real_places (env : PlacesEnv) (cache : PlacesCache)
    (city country : String) (limit : Nat) : List Place × PlacesCache :=
  let cache_key := city ++ "_" ++ country
  match dictLookup cache cache_key with
  | some v => (v, cache)
  | none =>
    let c := get_city_coordinates env.live_geocode city country
    let places :=
      get_places_from_opentripmap env.otm_key (env.otm_resp c limit) env.otm_details
        ++ get_places_from_foursquare env.fsq_key env.fsq_rand
             (env.fsq_resp city country) city country
    let places :=
      if places.isEmpty then (dictLookup fallback_places city).getD [] else places
    (places, cache ++ [(cache_key, places)])

theorem fallback_places_entries_nonempty :
    ∀ p ∈ fallback_places, p.2 ≠ [] := by decide

/-- A provider environment in which every external collaborator is
unavailable: the geocoder finds nothing and both API keys are unset. -/
def env₀ : PlacesEnv :=
  ⟨fun _ _ => none, none, fun _ _ => Http.exn, fun _ => none, none, 0,
   fun _ _ => Http.exn⟩

/-- C3: for a city of the static fallback table whose (city, country)
key is uncached, when both live providers yield no results,
`get_real_places` returns exactly the table's list for that city, which
is non-empty. -/
theorem get_real_places_fallback_nonempty
    (env : PlacesEnv) (cache : PlacesCache) (city country : String) (limit : Nat)
    (pl : List Place)
    (hcity : dictLookup fallback_places city = some pl)
    (hcache : dictLookup cache (city ++ "_" ++ country) = none)
    (hotm : get_places_from_opentripmap env.otm_key
        (env.otm_resp (get_city_coordinates env.live_geocode city country) limit)
        env.otm_details = [])
    (hfsq : get_places_from_foursquare env.fsq_key env.fsq_rand
        (env.fsq_resp city country) city country = []) :
    (get_real_places env cache city country limit).1 = pl ∧ pl ≠ [] :=
  ⟨by simp [get_real_places, hcache, hotm, hfsq, hcity],
   fallback_places_entries_nonempty _ (dictLookup_mem hcity)⟩

theorem get_real_places_fallback_nonempty_witness :
    (get_real_places env₀ [] "Colombo" "Sri Lanka" 10).1 =
        (dictLookup fallback_places "Colombo").getD [] ∧
      (dictLookup fallback_places "Colombo").getD [] ≠ [] :=
  get_real_places_fallback_nonempty env₀ [] "Colombo" "Sri Lanka" 10
    ((dictLookup fallback_places "Colombo").getD []) rfl rfl rfl rfl

/-- C4: each provider lookup independently returns `[]` — and, being a
total function, raises nothing — when its API key is missing, the
request raises, or the response status is not 200; and for a city absent
from the fallback table, when both providers yield no results on an
uncached key, `get_real_places` returns exactly the empty list. -/
theorem providers_fail_soft_and_unknown_city_empty :
    (∀ resp details, get_places_from_opentripmap none resp details = []) ∧
    (∀ key details, get_places_from_opentripmap key Http.exn details = []) ∧
    (∀ key status body details, status ≠ 200 →
        get_places_from_opentripmap key (Http.ok status body) details = []) ∧
    (∀ rand resp city country,
        get_places_from_foursquare none rand resp city country = []) ∧
    (∀ key rand city country,
        get_places_from_foursquare key rand Http.exn city country = []) ∧
    (∀ key rand status body city country, status ≠ 200 →
        get_places_from_foursquare key rand (Http.ok status body) city country = []) ∧
    (∀ env cache city country limit,
        dictLookup fallback_places city = none →
        dictLookup cache (city ++ "_" ++ country) = none →
        get_places_from_opentripmap env.otm_key
          (env.otm_resp (get_city_coordinates env.live_geocode city country) limit)
          env.otm_details = [] →
        get_places_from_foursquare env.fsq_key env.fsq_rand (env.fsq_resp city country)
          city country = [] →
        (get_real_places env cache city country limit).1 = []) := by
  refine ⟨fun _ _ => rfl, fun key _ => ?_, fun key status body _ h => ?_,
    fun _ _ _ _ => rfl, fun key _ _ _ => ?_, fun key _ status body _ _ h => ?_,
    fun env cache city country limit hcity hcache hotm hfsq => ?_⟩
  · cases key <;> rfl
  · cases key <;> simp [get_places_from_opentripmap, h]
  · cases key <;> rfl
  · cases key <;> simp [get_places_from_foursquare, h]
  · simp [get_real_places, hcache, hotm, hfsq, hcity]

theorem providers_fail_soft_and_unknown_city_empty_witness :
    (get_real_places env₀ [] "Atlantis" "Nowhere" 10).1 = [] :=
  providers_fail_soft_and_unknown_city_empty.2.2.2.2.2.2 env₀ [] "Atlantis" "Nowhere"
    10 rfl rfl rfl rfl

/-- C5: a cached (city, country) entry — an empty list included — is
returned unchanged with the cache untouched, and the run is observably
identical for any two provider/geocoder behaviours and limits. -/
theorem get_real_places_cached_independent
    (cache : PlacesCache) (city country : String) (v : List Place)
    (hcache : dictLookup cache (city ++ "_" ++ country) = some v) :
    ∀ (env₁ env₂ : PlacesEnv) (limit₁ limit₂ : Nat),
      get_real_places env₁ cache city country limit₁ = (v, cache) ∧
      get_real_places env₁ cache city country limit₁ =
        get_real_places env₂ cache city country limit₂ := by
  intro e1 e2 l1 l2
  constructor <;> simp [get_real_places, hcache]

theorem get_real_places_cached_independent_witness :
    get_real_places env₀ [("Paris_France", [])] "Paris" "France" 10 =
        ([], [("Paris_France", [])]) ∧
      get_real_places env₀ [("Paris_France", [])] "Paris" "France" 10 =
        get_real_places
          ⟨fun _ _ => some (0, 0), some "k", fun _ _ => Http.ok 200 [some "x"],
           fun _ => some default, some "k", 40, fun _ _ => Http.ok 200 []⟩
          [("Paris_France", [])] "Paris" "France" 99 :=
  get_real_places_cached_independent [("Paris_France", [])] "Paris" "France" [] rfl
    env₀ _ 10 99

/-- The `best_times` list inside `get_daily_places` (app.py). -/
def best_times : List String :=
  ["Morning 9AM-12PM (Best for photos)",
   "Afternoon 2PM-5PM (Avoid crowds)",
   "Evening 6PM-9PM (Beautiful sunset views)"]

/-- The `durations` list inside `get_daily_places` (app.py). -/
def durations : List String := ["2-3 hours", "3-4 hours", "1-2 hours"]

/-- The `icon_map` dict inside `get_daily_places` (app.py), in source
order; the literal repeats the key "Shopping", so under dict semantics
the later binding ("🛍️") wins. -/
def icon_map : List (String × String) :=
  [("Buddhist Temple", "🛕"),
   ("Hindu Temple", "🛕"),
   ("Mosque", "🕌"),
   ("Church", "⛪"),
   ("Temple", "🛕"),
   ("Park", "🏞️"),
   ("Museum", "🏛️"),
   ("Historic", "🏛️"),
   ("Market", "🛍️"),
   ("Beach", "🏖️"),
   ("Palace", "🏰"),
   ("Castle", "🏰"),
   ("Viewpoint", "🌄"),
   ("Garden", "🌿"),
   ("Lake", "🌊"),
   ("Statue", "🗽"),
   ("Fort", "🏯"),
   ("Shopping", "🛒"),
   ("Cathedral", "⛪"),
   ("Shrine", "⛩️"),
   ("Religious", "🕌"),
   ("Natural", "🌲"),
   ("Architecture", "🏢"),
   ("Attraction", "📍"),
   ("Bridge", "🌉"),
   ("Hiking Trail", "🥾"),
   ("Waterfall", "🌊"),
   ("Plantation", "🍵"),
   ("Lagoon", "🏝️"),
   ("Island", "🏝️"),
   ("Lighthouse", "🗼"),
   ("Forest Reserve", "🌳"),
   ("National Park", "🐘"),
   ("Wildlife Safari", "🐅"),
   ("Conservation Center", "🐘"),
   ("Archaeological Site", "🏺"),
   ("Ancient Structure", "🏛️"),
   ("Monument", "🗽"),
   ("Mountain", "⛰️"),
   ("River", "🌊"),
   ("Cave", "🕳️"),
   ("Hot Springs", "♨️"),
   ("Reservoir", "💧"),
   ("Wetland", "🌿"),
   ("Bird Sanctuary", "🦅"),
   ("Marine Sanctuary", "🐠"),
   ("Adventure Sports", "🏄"),
   ("Surf Spot", "🏄"),
   ("Boat Tour", "🚤"),
   ("Cultural Show", "🎭"),
   ("Workshop", "🔨"),
   ("Farm", "🚜"),
   ("Tea Factory", "🍵"),
   ("Mine", "⛏️"),
   ("Golf Course", "⛳"),
   ("Sports Venue", "🏟️"),
   ("Airport", "✈️"),
   ("Port", "🚢"),
   ("Town", "🏙️"),
   ("Village", "🏡"),
   ("Historical House", "🏚️"),
   ("Film Location", "🎬"),
   ("Camping", "🏕️"),
   ("Scenic Route", "🛣️"),
   ("Modern Infrastructure", "🏗️"),
   ("Accommodation", "🏨"),
   ("Dining", "🍽️"),
   ("Nightlife", "🍸"),
   ("Shopping", "🛍️"),
   ("Cultural Experience", "🎎"),
   ("Educational", "📚"),
   ("Photography", "📷"),
   ("Pilgrimage Site", "🙏"),
   ("Religious Tour", "🛐"),
   ("Rural Tourism", "🌾")]

/-- A place as returned by `get_daily_places`: a shallow copy of a
cached `Place` dict (`all_places[idx].copy()`) extended with the four
display keys added by `place.update`. -/
structure DecoratedPlace where
  base : Place
  best_time : String
  duration : String
  icon : String
  tags : List String
deriving DecidableEq

/-- The decoration applied to the `i`-th selected place of a day:
cyclic `best_time`/`duration` choices, a type → icon lookup with the
default icon "📍", and the fixed tag list. -/
def decorate_place (i : Nat) (p : Place) : DecoratedPlace :=
  ⟨p, best_times.getD (i % best_times.length) "",
   durations.getD (i % durations.length) "",
   (dictLookup icon_map p.type).getD "📍",
   [p.type, "Popular", "Must Visit"]⟩

/-- `start_idx = (day_number - 1) * num_places` (app.py). -/
def day_start_idx (day_number : Int) (num_places : Nat) : Int :=
  (day_number - 1) * num_places

/-- `idx = (start_idx + i) % len(all_places)` (app.py); Python's `%` on
a positive modulus is `Int.emod`, whose result is non-negative, so the
index is returned as a `Nat`. -/
def select_index (start : Int) (len : Nat) (i : Nat) : Nat :=
  ((start + i) % (len : Int)).toNat

/-- `get_daily_places(day_number, city, country, num_places)` (app.py):
fetches up to 20 places through `get_real_places`, returns `[]` for an
empty pool, and otherwise decorates the `num_places` pool entries at the
wrapped indices.  The source indexes with `all_places[idx]`; `getD`
with the default place is exact because the index is in range (proved
below). -/
def get_daily_places (env : PlacesEnv) (cache : PlacesCache) (day_number : Int)
    (city country : String) (num_places : Nat) : List DecoratedPlace × PlacesCache :=
  let r := get_real_places env cache city country 20
  if r.1.isEmpty then ([], r.2)
  else
    ((List.range num_places).map fun i =>
        decorate_place i
          (r.1.getD (select_index (day_start_idx day_number num_places) r.1.length i)
            default),
     r.2)

/-- A second `get_real_places` for a key already resolved once returns
the same list and cache, for any provider behaviour and limit: the first
call's result was cached. -/
theorem get_real_places_stable (env env' : PlacesEnv) (cache : PlacesCache)
    (city country : String) (limit limit' : Nat) :
    get_real_places env' (get_real_places env cache city country limit).2
        city country limit'
      = ((get_real_places env cache city country limit).1,
         (get_real_places env cache city country limit).2) := by
  cases h : dictLookup cache (city ++ "_" ++ country) with
  | some v =>
    simp [get_real_places, h]
  | none =>
    simp only [get_real_places, h]
    simp [dictLookup_append_self]

/-- C2: for a non-empty pool, `get_daily_places` returns exactly
`num_places` entries, and every index the source computes for
`all_places[idx]` is strictly below the pool length — the modulo
reduction makes the indexing safe even when the count exceeds the pool
size. -/
theorem get_daily_places_count_and_bounds
    (env : PlacesEnv) (cache : PlacesCache) (day_number : Int)
    (city country : String) (count : Nat)
    (hday : 1 ≤ day_number) (hcount : 1 ≤ count)
    (hpool : (get_real_places env cache city country 20).1 ≠ []) :
    (get_daily_places env cache day_number city country count).1.length = count ∧
    ∀ i < count,
      select_index (day_start_idx day_number count)
          (get_real_places env cache city country 20).1.length i
        < (get_real_places env cache city country 20).1.length := by
  have hlen : 0 < (get_real_places env cache city country 20).1.length :=
    List.length_pos.mpr hpool
  constructor
  · simp [get_daily_places, List.isEmpty_iff, hpool]
  · intro i _
    unfold select_index
    have hne : ((get_real_places env cache city country 20).1.length : Int) ≠ 0 := by
      omega
    have h1 := Int.emod_nonneg (day_start_idx day_number count + i) hne
    have h2 := Int.emod_lt_of_pos (day_start_idx day_number count + i)
      (show (0 : Int) < (get_real_places env cache city country 20).1.length by omega)
    omega

theorem get_daily_places_count_and_bounds_witness :
    (get_daily_places env₀ [] 1 "Galle" "Sri Lanka" 25).1.length = 25 ∧
      ∀ i < 25,
        select_index (day_start_idx 1 25)
            (get_real_places env₀ [] "Galle" "Sri Lanka" 20).1.length i
          < (get_real_places env₀ [] "Galle" "Sri Lanka" 20).1.length :=
  get_daily_places_count_and_bounds env₀ [] 1 "Galle" "Sri Lanka" 25
    (by decide) (by decide) (by decide)

/-- C6: the selection of `get_daily_places` depends on the day only
through `(day_number - 1) * count` modulo the pool length: two days with
equal offsets modulo the pool length produce identical decorated lists
(the per-position decoration depends only on the position). -/
theorem get_daily_places_mod_wraparound
    (env : PlacesEnv) (cache : PlacesCache) (city country : String)
    (d d' : Int) (count : Nat)
    (h : day_start_idx d count % ((get_real_places env cache city country 20).1.length : Int)
       = day_start_idx d' count % ((get_real_places env cache city country 20).1.length : Int)) :
    get_daily_places env cache d city country count =
      get_daily_places env cache d' city country count := by
  unfold get_daily_places
  have hsel : ∀ i : Nat,
      select_index (day_start_idx d count)
          (get_real_places env cache city country 20).1.length i =
        select_index (day_start_idx d' count)
          (get_real_places env cache city country 20).1.length i := by
    intro i
    unfold select_index
    congr 1
    rw [Int.add_emod, h, ← Int.add_emod]
  simp [hsel]

/-- A session cache holding a pool of exactly 3 places for Kandy. -/
def cacheK : PlacesCache :=
  [("Kandy_Sri Lanka", ((dictLookup fallback_places "Kandy").getD []).take 3)]

theorem get_daily_places_mod_wraparound_witness :
    get_daily_places env₀ cacheK 4 "Kandy" "Sri Lanka" 3 =
      get_daily_places env₀ cacheK 1 "Kandy" "Sri Lanka" 3 :=
  get_daily_places_mod_wraparound env₀ cacheK "Kandy" "Sri Lanka" 4 1 3 (by decide)

/-- C9: `get_daily_places` leaves the session cache exactly as
`get_real_places` alone would (it adds no decoration to cached data), a
subsequent `get_real_places` for the same key returns the same plain
`Place` records with the cache unchanged — records whose type carries no
`best_time`/`duration`/`icon`/`tags` fields — and every decorated entry
wraps a record of the cached pool (the decoration operates on copies). -/
theorem get_daily_places_preserves_cache
    (env : PlacesEnv) (cache : PlacesCache) (day_number : Int)
    (city country : String) (count : Nat) :
    (get_daily_places env cache day_number city country count).2
        = (get_real_places env cache city country 20).2 ∧
      get_real_places env (get_daily_places env cache day_number city country count).2
          city country 20
        = ((get_real_places env cache city country 20).1,
           (get_real_places env cache city country 20).2) ∧
      ∀ dp ∈ (get_daily_places env cache day_number city country count).1,
        dp.base ∈ (get_real_places env cache city country 20).1 := by
  have h2 : (get_daily_places env cache day_number city country count).2
      = (get_real_places env cache city country 20).2 := by
    unfold get_daily_places
    by_cases h : (get_real_places env cache city country 20).1.isEmpty <;> simp [h]
  refine ⟨h2, by rw [h2]; exact get_real_places_stable env env cache city country 20 20,
    ?_⟩
  unfold get_daily_places
  by_cases h : (get_real_places env cache city country 20).1.isEmpty
  · simp [h]
  · simp only [h, if_neg, Bool.false_eq_true, not_false_iff, List.mem_map,
      List.mem_range]
    rintro dp ⟨i, -, rfl⟩
    have hpos : 0 < (get_real_places env cache city country 20).1.length := by
      cases hl : (get_real_places env cache city country 20).1 with
      | nil => rw [hl] at h; simp at h
      | cons a t => simp [hl]
    have hne : ((get_real_places env cache city country 20).1.length : Int) ≠ 0 := by
      omega
    have hidx : select_index (day_start_idx day_number count)
        (get_real_places env cache city country 20).1.length i
        < (get_real_places env cache city country 20).1.length := by
      unfold select_index
      have h1 := Int.emod_nonneg (day_start_idx day_number count + i) hne
      have h3 := Int.emod_lt_of_pos (day_start_idx day_number count + i)
        (show (0 : Int) < (get_real_places env cache city country 20).1.length by omega)
      omega
    show (get_real_places env cache city country 20).1.getD
        (select_index (day_start_idx day_number count)
          (get_real_places env cache city country 20).1.length i) default
      ∈ (get_real_places env cache city country 20).1
    rw [List.getD_eq_getElem _ _ hidx]
    exact List.getElem_mem _

/-- The image record `get_place_image` builds and caches. -/
structure ImageResult where
  url : String
  photographer : String
  photographer_url : String
  alt : String
  source : String
deriving DecidableEq

/-- The fields of one Unsplash photo result the code reads. -/
structure UnsplashPhoto where
  url_regular : String
  url_full : String
  user_name : String
  user_link : String
  alt_description : Option String

/-- The fields of one Pexels photo result the code reads. -/
structure PexelsPhoto where
  src_large : String
  src_medium : String
  photographer : String
  photographer_url : String
  alt : Option String

/-- One page of the Wikipedia `pageimages` response; `original_source`
is the "original"."source" URL when the page carries an image. -/
structure WikiPage where
  original_source : Option String

/-- The Unsplash query variants, in source order. -/
def unsplash_queries (place_name city country : String) : List String :=
  [place_name ++ " " ++ city ++ " " ++ country ++ " tourism",
   place_name ++ " landmark",
   city ++ " " ++ place_name ++ " tourist attraction",
   place_name ++ " travel",
   place_name]

/-- The Pexels query variants, in source order. -/
def pexels_queries (place_name city country : String) : List String :=
  [place_name ++ " " ++ city ++ " tourism",
   place_name ++ " landmark " ++ country,
   city ++ " attractions",
   place_name]

/-- The result built from the first photo of a non-empty Unsplash
result list ("regular" URL for size "medium", "full" otherwise). -/
def unsplash_extract (place_name city size : String)
    (body : List UnsplashPhoto) : Option ImageResult :=
  match body with
  | [] => none
  | photo :: _ =>
    some ⟨(if size = "medium" then photo.url_regular else photo.url_full),
          photo.user_name, photo.user_link,
          photo.alt_description.getD (place_name ++ " in " ++ city), "Unsplash"⟩

/-- The result built from the first photo of a non-empty Pexels result
list ("large" source for size "large", "medium" otherwise). -/
def pexels_extract (place_name city size : String)
    (body : List PexelsPhoto) : Option ImageResult :=
  match body with
  | [] => none
  | photo :: _ =>
    some ⟨(if size = "large" then photo.src_large else photo.src_medium),
          photo.photographer, photo.photographer_url,
          photo.alt.getD (place_name ++ " in " ++ city), "Pexels"⟩

/-- The `for query in queries` loop of one stock-photo provider's `try`
block: a non-200 response or an unusable body moves on to the next
query, a usable body returns its result, and a raised exception aborts
the whole block (the `except` wraps the entire loop). -/
def try_queries {β : Type} (resp : String → Http β)
    (extract : β → Option ImageResult) : List String → Option ImageResult
  | [] => none
  | q :: rest =>
    match resp q with
    | .exn => none
    | .ok status body =>
      if status = 200 then
        match extract body with
        | some r => some r
        | none => try_queries resp extract rest
      else try_queries resp extract rest

/-- The Wikimedia fallback block: on a 200 response, the first page
carrying an "original" image yields the result. -/
def wiki_lookup (place_name : String) (resp : Http (List WikiPage)) :
    Option ImageResult :=
  match resp with
  | .exn => none
  | .ok status pages =>
    if status = 200 then
      pages.findSome? fun page =>
        page.original_source.map fun src =>
          ⟨src, "Wikimedia Commons", "https://commons.wikimedia.org",
           place_name, "Wikimedia"⟩
    else none

/-- The Streamlit `st.session_state.image_cache`, keyed by the string
f"{place_name}_{city}_{country}_{size}". -/
abbrev ImageCache := List (String × ImageResult)

/-- The external behaviour `get_place_image` depends on: the two
stock-photo API keys, the two providers' per-query responses, and the
Wikipedia response as a function of the searched title. -/
structure ImageEnv where
  unsplash_key : Option String
  unsplash_resp : String → Http (List UnsplashPhoto)
  pexels_key : Option String
  pexels_resp : String → Http (List PexelsPhoto)
  wiki_resp : String → Http (List WikiPage)

/-- `get_place_image(place_name, city, country, size)` (app.py): cache
lookup, then Unsplash (when its key is set), then Pexels (when its key
is set), then the Wikimedia fallback; each success is cached and
returned; total exhaustion returns `None` and caches nothing. -/
def get_place_image (env : ImageEnv) (cache : ImageCache)
    (place_name city country size : String) : Option ImageResult × ImageCache :=
  let cache_key := place_name ++ "_" ++ city ++ "_" ++ country ++ "_" ++ size
  match dictLookup cache cache_key with
  | some r => (some r, cache)
  | none =>
    let fromUnsplash :=
      match env.unsplash_key with
      | none => none
      | some _ =>
        try_queries env.unsplash_resp (unsplash_extract place_name city size)
          (unsplash_queries place_name city country)
    match fromUnsplash with
    | some r => (some r, cache ++ [(cache_key, r)])
    | none =>
      let fromPexels :=
        match env.pexels_key with
        | none => none
        | some _ =>
          try_queries env.pexels_resp (pexels_extract place_name city size)
            (pexels_queries place_name city country)
      match fromPexels with
      | some r => (some r, cache ++ [(cache_key, r)])
      | none =>
        match wiki_lookup place_name (env.wiki_resp (place_name ++ " " ++ city)) with
        | some r => (some r, cache ++ [(cache_key, r)])
        | none => (none, cache)

/-- "This call of the provider produces no usable image": the request
raised, the status was not 200, or the extraction found nothing. -/
def no_image {β : Type} (extract : β → Option ImageResult) : Http β → Prop
  | .exn => True
  | .ok status body => status ≠ 200 ∨ extract body = none

theorem try_queries_eq_none {β : Type} (resp : String → Http β)
    (extract : β → Option ImageResult) (qs : List String)
    (h : ∀ q ∈ qs, no_image extract (resp q)) :
    try_queries resp extract qs = none := by
  induction qs with
  | nil => rfl
  | cons q rest ih =>
    have hq := h q (List.mem_cons_self _ _)
    unfold try_queries
    cases hr : resp q with
    | exn => rfl
    | ok status body =>
      rw [hr] at hq
      dsimp only
      rcases hq with h200 | hext
      · rw [if_neg h200]
        exact ih fun x hx => h x (List.mem_cons_of_mem _ hx)
      · by_cases hs : status = 200
        · rw [if_pos hs, hext]
          exact ih fun x hx => h x (List.mem_cons_of_mem _ hx)
        · rw [if_neg hs]
          exact ih fun x hx => h x (List.mem_cons_of_mem _ hx)

/-- C10: on an uncached key, when every Unsplash and Pexels query
variant yields no usable image and the Wikimedia lookup yields no page
image, `get_place_image` returns `none` — no default image reference —
and leaves the image cache exactly as it was. -/
theorem get_place_image_exhaustion_none
    (env : ImageEnv) (cache : ImageCache) (place_name city country size : String)
    (hcache : dictLookup cache
        (place_name ++ "_" ++ city ++ "_" ++ country ++ "_" ++ size) = none)
    (hu : ∀ q, no_image (unsplash_extract place_name city size) (env.unsplash_resp q))
    (hp : ∀ q, no_image (pexels_extract place_name city size) (env.pexels_resp q))
    (hw : wiki_lookup place_name (env.wiki_resp (place_name ++ " " ++ city)) = none) :
    get_place_image env cache place_name city country size = (none, cache) := by
  have hu2 : (match env.unsplash_key with
      | none => none
      | some _ =>
        try_queries env.unsplash_resp (unsplash_extract place_name city size)
          (unsplash_queries place_name city country)) = (none : Option ImageResult) := by
    cases env.unsplash_key with
    | none => rfl
    | some k => exact try_queries_eq_none _ _ _ fun q _ => hu q
  have hp2 : (match env.pexels_key with
      | none => none
      | some _ =>
        try_queries env.pexels_resp (pexels_extract place_name city size)
          (pexels_queries place_name city country)) = (none : Option ImageResult) := by
    cases env.pexels_key with
    | none => rfl
    | some k => exact try_queries_eq_none _ _ _ fun q _ => hp q
  simp only [get_place_image, hcache, hu2, hp2, hw]

/-- An image environment with both keys set but every provider
responding 200 with an empty body, and Wikipedia responding 200 with no
pages. -/
def imgEnv₀ : ImageEnv :=
  ⟨some "u", fun _ => Http.ok 200 [], some "p", fun _ => Http.ok 200 [],
   fun _ => Http.ok 200 []⟩

theorem get_place_image_exhaustion_none_witness :
    get_place_image imgEnv₀ [] "Galle Fort" "Galle" "Sri Lanka" "medium" = (none, []) :=
  get_place_image_exhaustion_none imgEnv₀ [] "Galle Fort" "Galle" "Sri Lanka" "medium"
    rfl (fun _ => Or.inr rfl) (fun _ => Or.inr rfl) rfl

/-- The code-fence cleanup in `generate_comprehensive_itinerary`
(app.py): given the stripped completion text as a Python `str`,
modelled at the codepoint level, `result[7:-3]` is applied under a
` ```json ` prefix and `result[3:-3]` under a bare ` ``` ` prefix. -/
def clean_json (result : List Char) : List Char :=
  if "```json".toList.isPrefixOf result then (result.take (result.length - 3)).drop 7
  else if "```".toList.isPrefixOf result then (result.take (result.length - 3)).drop 3
  else result

theorem clean_json_fenced (s : List Char) :
    clean_json ("```json".toList ++ s ++ "```".toList) = s := by
  have hA7 : ("```json".toList : List Char).length = 7 := rfl
  have hB3 : ("```".toList : List Char).length = 3 := rfl
  have hpre : "```json".toList.isPrefixOf ("```json".toList ++ s ++ "```".toList) := by
    rw [List.isPrefixOf_iff_prefix, List.append_assoc]
    exact List.prefix_append _ _
  unfold clean_json
  rw [if_pos hpre]
  have hlen : ("```json".toList ++ s ++ "```".toList).length = 7 + s.length + 3 := by
    rw [List.length_append, List.length_append, hA7, hB3]
  rw [hlen, show 7 + s.length + 3 - 3 = 7 + s.length from by omega,
    List.take_left' (show ("```json".toList ++ s).length = 7 + s.length from by
      rw [List.length_append, hA7]),
    List.drop_left' hA7]

theorem clean_json_bare (s : List Char) (hhead : s.head? ≠ some 'j') :
    clean_json ("```".toList ++ s ++ "```".toList) = s := by
  have hA3 : ("```".toList : List Char).length = 3 := rfl
  have hnot : ¬ "```json".toList.isPrefixOf ("```".toList ++ s ++ "```".toList) := by
    rw [List.isPrefixOf_iff_prefix, List.append_assoc]
    intro hpre
    rw [show "```json".toList = '`' :: '`' :: '`' :: "json".toList from rfl,
      show ("```".toList : List Char) = ['`', '`', '`'] from rfl] at hpre
    simp only [List.cons_append, List.nil_append, List.cons_prefix_cons,
      true_and] at hpre
    cases s with
    | nil => exact absurd hpre (by decide)
    | cons c t =>
      rw [show ("json".toList : List Char) = 'j' :: "son".toList from rfl,
        List.cons_append, List.cons_prefix_cons] at hpre
      exact hhead (by rw [List.head?_cons, ← hpre.1])
  have hpre3 : "```".toList.isPrefixOf ("```".toList ++ s ++ "```".toList) := by
    rw [List.isPrefixOf_iff_prefix, List.append_assoc]
    exact List.prefix_append _ _
  unfold clean_json
  rw [if_neg hnot, if_pos hpre3]
  have hlen : ("```".toList ++ s ++ "```".toList).length = 3 + s.length + 3 := by
    rw [List.length_append, List.length_append, hA3]
  rw [hlen, show 3 + s.length + 3 - 3 = 3 + s.length from by omega,
    List.take_left' (show ("```".toList ++ s).length = 3 + s.length from by
      rw [List.length_append, hA3]),
    List.drop_left' hA3]

/-- C7: for a completion document fenced as ` ```json … ``` ` or
` ``` … ``` ` around a body `s` that does not itself begin with the
letter 'j' (no JSON value does), `clean_json` recovers exactly `s`, so
any JSON parser `loads` succeeds on the cleaned text exactly as on the
unfenced body, with the same parse. -/
theorem clean_json_fence_stripping {J : Type} (loads : List Char → Option J)
    (s : List Char) (j : J)
    (hjson : loads s = some j)
    (hhead : s.head? ≠ some 'j') :
    clean_json ("```json".toList ++ s ++ "```".toList) = s ∧
    clean_json ("```".toList ++ s ++ "```".toList) = s ∧
    loads (clean_json ("```json".toList ++ s ++ "```".toList)) = some j ∧
    loads (clean_json ("```".toList ++ s ++ "```".toList)) = some j :=
  ⟨clean_json_fenced s, clean_json_bare s hhead,
   by rw [clean_json_fenced s, hjson], by rw [clean_json_bare s hhead, hjson]⟩

theorem clean_json_fence_stripping_witness :
    clean_json ("```json".toList ++ "[1,2]".toList ++ "```".toList) = "[1,2]".toList ∧
    clean_json ("```".toList ++ "[1,2]".toList ++ "```".toList) = "[1,2]".toList ∧
    (fun l => if l = "[1,2]".toList then some 1 else none)
        (clean_json ("```json".toList ++ "[1,2]".toList ++ "```".toList)) = some 1 ∧
    (fun l => if l = "[1,2]".toList then some 1 else none)
        (clean_json ("```".toList ++ "[1,2]".toList ++ "```".toList)) = some 1 :=
  clean_json_fence_stripping (fun l => if l = "[1,2]".toList then some 1 else none)
    "[1,2]".toList 1 (by decide) (by decide)

/-- The JSON object returned by the extraction completion, reduced to
the keys `generate_comprehensive_itinerary` reads with `.get`; `none`
models an absent key. -/
structure ExtractedInfo where
  destination_country : Option String
  destinations : Option (List String)
  destination_city : Option String
  duration_days : Option Int
  travelers : Option Int
  budget : Option String
  interests : Option (List String)
  travel_dates : Option String

/-- The destination-normalisation step of the Inquiry Parser (app.py):
`destinations = extracted_info.get("destinations", [])`, and when that
list is empty, a non-empty `destination_city` is promoted to a
one-element list. -/
def parse_destinations (info : ExtractedInfo) : List String :=
  let dests := info.destinations.getD []
  if dests.isEmpty then
    let main_city := info.destination_city.getD ""
    if main_city ≠ "" then [main_city] else dests
  else dests

/-- C8: an absent or empty destinations list together with a non-empty
`destination_city` yields exactly the one-element list of that city; a
non-empty destinations list is used unchanged. -/
theorem parse_destinations_normalization :
    (∀ (info : ExtractedInfo) (c : String),
        (info.destinations = none ∨ info.destinations = some []) →
        info.destination_city = some c → c ≠ "" →
        parse_destinations info = [c]) ∧
    (∀ (info : ExtractedInfo) (ds : List String),
        info.destinations = some ds → ds ≠ [] →
        parse_destinations info = ds) := by
  constructor
  · rintro info c (h | h) hc hne <;> simp [parse_destinations, h, hc, hne]
  · intro info ds h hne
    simp [parse_destinations, h, List.isEmpty_iff, hne]

/-- An extraction result with an empty destinations list and a singular
destination city. -/
def infoK : ExtractedInfo :=
  ⟨some "Sri Lanka", some [], some "Kandy", some 5, some 2, some "$1500",
   some ["culture", "beaches"], none⟩

theorem parse_destinations_normalization_witness :
    parse_destinations infoK = ["Kandy"] :=
  parse_destinations_normalization.1 infoK "Kandy" (Or.inr rfl) rfl (by decide)
